import Mathlib

/-!
# Stream-session manager of hkcam (`ffmpeg` package)

A shallow embedding of `ffmpeg/stream.go` and `ffmpeg/ffmpeg.go`:

* the command builder (`stream.start` up to the argument list handed to `exec.Command`,
  with `videoBitrate`, `framerate`, `videoLevel`, `videoMTU`, `videoEncoder`,
  `videoDecoderOption`);
* the session registry (`PrepareNewStream`, `Start`, `Stop`, `Suspend`, `Resume`,
  `Reconfigure`, `ActiveStreams`, `Snapshot`, `RecentSnapshot`) as state-passing functions
  which also return the list of effects they perform on the outside world.

Go strings are Lean strings, `fmt.Sprintf("%d", n)` is the decimal rendering `toString n`,
unsigned machine integers are `Nat`, signed ones are `Int` (no arithmetic is performed on them,
only comparison and printing).
-/

namespace Hkcam

/-! ## Types of `github.com/brutella/hap/rtp` used by the package -/

/-- The named constants of package `rtp` that the source switches on.  Their numeric values are
not part of this repository, so they are a parameter of every definition that mentions one. -/
structure RtpConstants where
  VideoCodecType_H264 : Nat
  VideoCodecLevel3_1 : Nat
  VideoCodecLevel3_2 : Nat
  VideoCodecLevel4 : Nat
  IPAddrVersionv4 : Nat
  IPAddrVersionv6 : Nat
  deriving DecidableEq, Repr

/-- One concrete choice of the constants, used to evaluate the definitions on examples. -/
def hapConstants : RtpConstants :=
  { VideoCodecType_H264 := 0
    VideoCodecLevel3_1 := 0
    VideoCodecLevel3_2 := 1
    VideoCodecLevel4 := 2
    IPAddrVersionv4 := 0
    IPAddrVersionv6 := 1 }

/-- Go `rtp.VideoCodecLevel`. -/
structure VideoCodecLevel where
  Level : Nat
  deriving DecidableEq, Repr

/-- Go `rtp.VideoCodecParameters`; only `Levels` is read by the package. -/
structure VideoCodecParameters where
  Levels : List VideoCodecLevel
  deriving DecidableEq, Repr

/-- Go `rtp.VideoCodecAttributes`. -/
structure VideoCodecAttributes where
  Width : Nat
  Height : Nat
  Framerate : Nat
  deriving DecidableEq, Repr

/-- Go `rtp.RTPParams`; the fields read by the package. -/
structure RTPParams where
  PayloadType : Nat
  Bitrate : Nat
  deriving DecidableEq, Repr

/-- Go `rtp.VideoParameters`. -/
structure VideoParameters where
  CodecType : Nat
  CodecParams : VideoCodecParameters
  Attributes : VideoCodecAttributes
  RTP : RTPParams
  deriving DecidableEq, Repr

/-- Go `rtp.AudioParameters`; no field of it is read by the package. -/
structure AudioParameters where
  CodecType : Nat
  deriving DecidableEq, Repr

/-- Go `rtp.Addr`. -/
structure Addr where
  IPVersion : Nat
  IPAddr : String
  VideoRtpPort : Nat
  AudioRtpPort : Nat
  deriving DecidableEq, Repr

/-- Go `rtp.CryptoSuite`, abstracted to the string its method `SrtpKey()` returns. -/
structure CryptoSuite where
  srtpKey : String
  deriving DecidableEq, Repr

/-- The method `SrtpKey()` of `rtp.CryptoSuite`. -/
def CryptoSuite.SrtpKey (c : CryptoSuite) : String := c.srtpKey

/-- Go `rtp.SetupEndpoints`; `SessionId` is a byte slice. -/
structure SetupEndpoints where
  SessionId : List Nat
  ControllerAddr : Addr
  Video : CryptoSuite
  Audio : CryptoSuite
  deriving DecidableEq, Repr

/-- Go `rtp.SetupEndpointsResponse`; the fields read by the package. -/
structure SetupEndpointsResponse where
  SessionId : List Nat
  SsrcVideo : Int
  SsrcAudio : Int
  deriving DecidableEq, Repr

/-! ## `strings.Split(s, " ")` -/

/-- Splitting of a character sequence at every occurrence of `sep`: the pieces between the
separators, in order; a sequence without separator gives one piece, two adjacent separators give
an empty piece. -/
def splitChars (sep : Char) : List Char → List (List Char)
  | [] => [[]]
  | c :: cs =>
    if c = sep then [] :: splitChars sep cs
    else
      match splitChars sep cs with
      | [] => [[c]]
      | w :: ws => (c :: w) :: ws

/-- Go `strings.Split(s, " ")`. -/
def Split (s : String) : List String :=
  (splitChars ' ' s.data).map String.mk

/-! ## `stream.go` -/

/-- A started `*exec.Cmd`: the argument list it was created with and the process it runs. -/
structure Cmd where
  args : List String
  pid : Nat
  deriving DecidableEq, Repr

/-- Go `stream`; `cmd` is the nullable process handle. -/
structure stream where
  inputDevice : String
  inputFilename : String
  h264Decoder : String
  h264Encoder : String
  minVideoBitrate : Int
  req : SetupEndpoints
  resp : SetupEndpointsResponse
  cmd : Option Cmd
  deriving DecidableEq, Repr

/-- Go `stream.isActive`. -/
def stream.isActive (s : stream) : Bool := s.cmd.isSome

/-- Go `stream.videoEncoder`. -/
def stream.videoEncoder (K : RtpConstants) (s : stream) (param : VideoParameters) : String :=
  if param.CodecType = K.VideoCodecType_H264 then s.h264Encoder else "?"

/-- Go `stream.videoDecoderOption`. -/
def stream.videoDecoderOption (K : RtpConstants) (s : stream) (param : VideoParameters) :
    String :=
  if param.CodecType = K.VideoCodecType_H264 then
    if s.h264Decoder ≠ "" then " -codec:v " ++ s.h264Decoder else ""
  else ""

/-- Go `stream.videoBitrate`: `br := int(param.RTP.Bitrate)`, raised to the floor. -/
def stream.videoBitrate (s : stream) (param : VideoParameters) : Int :=
  let br : Int := (param.RTP.Bitrate : Int)
  if s.minVideoBitrate > br then s.minVideoBitrate else br

/-- Go `stream.framerate`. -/
def stream.framerate (s : stream) (attr : VideoCodecAttributes) : Nat :=
  if s.inputDevice = "avfoundation" then 30 else attr.Framerate

/-- The loop of Go `videoLevel` over `param.Levels`: the first entry matching a `case` returns. -/
def videoLevelLoop (K : RtpConstants) : List VideoCodecLevel → String
  | [] => ""
  | l :: ls =>
    if l.Level = K.VideoCodecLevel3_1 then "3.1"
    else if l.Level = K.VideoCodecLevel3_2 then "3.2"
    else if l.Level = K.VideoCodecLevel4 then "4.0"
    else videoLevelLoop K ls

/-- Go `videoLevel`. -/
def videoLevel (K : RtpConstants) (param : VideoCodecParameters) : String :=
  videoLevelLoop K param.Levels

/-- Go `videoMTU`. -/
def videoMTU (K : RtpConstants) (setup : SetupEndpoints) : String :=
  if setup.ControllerAddr.IPVersion = K.IPAddrVersionv4 then "1378"
  else if setup.ControllerAddr.IPVersion = K.IPAddrVersionv6 then "1228"
  else "1378"

/-- The string `ffmpegVideo` built by Go `stream.start`, piece by piece as in the source. -/
def stream.ffmpegVideo (K : RtpConstants) (s : stream) (video : VideoParameters) : String :=
  ("-re -i " ++ s.inputFilename) ++
    " -allow_sw 1" ++
    (" -framerate " ++ toString (s.framerate video.Attributes)) ++
    s.videoDecoderOption K video ++
    " -an" ++
    (" -codec:v " ++ s.videoEncoder K video) ++
    " -pix_fmt yuv420p -vsync vfr" ++
    " -r 10" ++
    (" -video_size " ++ toString video.Attributes.Width ++ ":-2") ++
    (" -framerate " ++ toString video.Attributes.Framerate) ++
    (" -level:v " ++ videoLevel K video.CodecParams) ++
    " -f rawvideo" ++
    (" -b:v " ++ toString (s.videoBitrate video) ++ "k") ++
    (" -payload_type " ++ toString video.RTP.PayloadType) ++
    (" -ssrc " ++ toString s.resp.SsrcVideo) ++
    " -f rtp -srtp_out_suite AES_CM_128_HMAC_SHA1_80" ++
    (" -srtp_out_params " ++ s.req.Video.SrtpKey) ++
    (" srtp://" ++ s.req.ControllerAddr.IPAddr ++ ":" ++
      toString s.req.ControllerAddr.VideoRtpPort ++ "?rtcpport=" ++
      toString s.req.ControllerAddr.VideoRtpPort ++ "&pkt_size=" ++
      videoMTU K s.req ++ "&timeout=60")

/-- The argument list `args := strings.Split(ffmpegVideo, " ")` of Go `stream.start`. -/
def stream.startArgs (K : RtpConstants) (s : stream) (video : VideoParameters) : List String :=
  Split (s.ffmpegVideo K video)


/-- The words of `ffmpegVideo` contributed by `videoDecoderOption`: none when the option is the
empty string. -/
def stream.decoderWords (K : RtpConstants) (s : stream) (param : VideoParameters) :
    List String :=
  if param.CodecType = K.VideoCodecType_H264 ∧ s.h264Decoder ≠ "" then
    ["-codec:v", s.h264Decoder]
  else []

/-- The destination URL, last `Sprintf` piece of `ffmpegVideo` (without its leading space). -/
def stream.url (K : RtpConstants) (s : stream) : String :=
  "srtp://" ++ s.req.ControllerAddr.IPAddr ++ ":" ++
    toString s.req.ControllerAddr.VideoRtpPort ++ "?rtcpport=" ++
    toString s.req.ControllerAddr.VideoRtpPort ++ "&pkt_size=" ++
    videoMTU K s.req ++ "&timeout=60"

/-- The pieces of `ffmpegVideo` that stand between two single spaces of the format strings of
`stream.start`, in order.  A piece that comes from a configured or negotiated string may itself
hold spaces. -/
def stream.words (K : RtpConstants) (s : stream) (video : VideoParameters) : List String :=
  ["-re", "-i", s.inputFilename, "-allow_sw", "1",
    "-framerate", toString (s.framerate video.Attributes)] ++
  s.decoderWords K video ++
  ["-an", "-codec:v", s.videoEncoder K video,
    "-pix_fmt", "yuv420p", "-vsync", "vfr", "-r", "10",
    "-video_size", toString video.Attributes.Width ++ ":-2",
    "-framerate", toString video.Attributes.Framerate,
    "-level:v", videoLevel K video.CodecParams,
    "-f", "rawvideo",
    "-b:v", toString (s.videoBitrate video) ++ "k",
    "-payload_type", toString video.RTP.PayloadType,
    "-ssrc", toString s.resp.SsrcVideo,
    "-f", "rtp", "-srtp_out_suite", "AES_CM_128_HMAC_SHA1_80",
    "-srtp_out_params", s.req.Video.SrtpKey,
    s.url K]

/-- The words of a list joined by single spaces. -/
def joinSp : List String → String
  | [] => ""
  | [a] => a
  | a :: b :: rest => a ++ " " ++ joinSp (b :: rest)

/-- The concatenation of the splittings of each word. -/
def splitAll : List String → List String
  | [] => []
  | a :: rest => Split a ++ splitAll rest

/-- The word `a` stands in `l` immediately before `b`. -/
def Adjacent (a b : String) (l : List String) : Prop :=
  ∃ pre post, l = pre ++ a :: b :: post

/-- The entry of a list of levels is one of the three levels `videoLevel` knows. -/
def knownLevel (K : RtpConstants) (l : VideoCodecLevel) : Bool :=
  l.Level == K.VideoCodecLevel3_1 || l.Level == K.VideoCodecLevel3_2 ||
    l.Level == K.VideoCodecLevel4

/-! ## `ffmpeg.go` -/

/-- Go `StreamID`, a string; it is made of the bytes of a session id. -/
structure StreamID where
  bytes : List Nat
  deriving DecidableEq, Repr

/-- Go `Config`, with the fields that `cmd/hkcam/main.go` fills. -/
structure Config where
  InputDevice : String
  InputFilename : String
  LoopbackFilename : String
  H264Decoder : String
  H264Encoder : String
  MinVideoBitrate : Int
  MultiStream : Bool
  deriving DecidableEq, Repr

/-- Modelled from the spec: the type `loopback` of `ffmpeg/loopback.go`, which is not among the
sources.  The spec's LoopbackState is the boolean "device is bridging physical to shared
input". -/
structure loopback where
  inputDevice : String
  inputFilename : String
  loopbackFilename : String
  running : Bool
  deriving DecidableEq, Repr

/-- Modelled from the spec: `NewLoopback` of `ffmpeg/loopback.go`; the device is started lazily,
so a new coordinator is not bridging. -/
def NewLoopback (inputDevice inputFilename loopbackFilename : String) : loopback :=
  { inputDevice := inputDevice, inputFilename := inputFilename,
    loopbackFilename := loopbackFilename, running := false }

/-- Modelled from the spec: `loopback.Start` of `ffmpeg/loopback.go`, "safe to call when already
running (idempotent no-op)".  `ok` tells whether the device can be brought up when it is not
running; the returned flag is `true` when an error is returned. -/
def loopback.Start (l : loopback) (ok : Bool) : loopback × Bool :=
  if l.running then (l, false)
  else if ok then ({ l with running := true }, false)
  else (l, true)

/-- Modelled from the spec: `loopback.Stop` of `ffmpeg/loopback.go`; afterwards the device is not
bridging. -/
def loopback.Stop (l : loopback) : loopback :=
  { l with running := false }

/-- Modelled from the spec: the type `Snapshot` of `ffmpeg/snapshot.go`, "captured image,
implicit timestamp-of-capture". -/
structure Snapshot where
  Image : List Nat
  Date : Nat
  deriving DecidableEq, Repr

/-- Go `error` values met in the package: `*StreamNotFoundError` and the errors of `os/exec`. -/
inductive Error where
  | StreamNotFoundError (id : StreamID)
  | exec (msg : String)
  deriving DecidableEq, Repr

/-- The signals the package sends to an encoder process. -/
inductive Signal where
  | SIGINT
  | SIGSTOP
  | SIGCONT
  deriving DecidableEq, Repr

/-- What an operation does to the world outside the registry, in the order it does it. -/
inductive Effect where
  /-- The call `cmd.Start()` of `ffmpeg` with these arguments created the process `pid`. -/
  | spawn (args : List String) (pid : Nat)
  /-- The call `cmd.Start()` of `ffmpeg` with these arguments returned an error. -/
  | spawnFailed (args : List String)
  /-- The call `cmd.Process.Signal(sig)` on the process `pid`. -/
  | signal (pid : Nat) (sig : Signal)
  /-- The call `cmd.Wait()` on the process `pid`, which is taken to return. -/
  | wait (pid : Nat)
  /-- A call of `f.loop.Start()`. -/
  | loopbackStart
  /-- A call of `f.loop.Stop()`. -/
  | loopbackStop
  /-- A call of `snapshot(width, height, device, filename)`. -/
  | capture (width height : Nat) (device filename : String)
  deriving DecidableEq, Repr

/-- A run-time panic of the Go program. -/
inductive Fault where
  | nilPointerDereference
  deriving DecidableEq, Repr

/-- Go `ffmpeg` (the mutex is left out: every operation is one atomic step). -/
structure ffmpeg where
  cfg : Config
  loop : Option loopback
  streams : AList (fun _ : StreamID => stream)
  snapshot : Option Snapshot

/-- The result of one operation: the registry afterwards, the value returned to the caller and
the effects performed. -/
structure Outcome (ρ : Type) where
  state : ffmpeg
  ret : ρ
  effects : List Effect

/-- Go `stream.stop`: an attached process is interrupted and awaited, and the handle cleared. -/
def stream.stop (s : stream) : stream × List Effect :=
  match s.cmd with
  | some c => ({ s with cmd := none }, [Effect.signal c.pid Signal.SIGINT, Effect.wait c.pid])
  | none => (s, [])

/-- Go `stream.start`.  `spawn` is the result of `cmd.Start()`: the new process, or an error.
The handle is attached only when the spawn succeeded. -/
def stream.start (K : RtpConstants) (s : stream) (video : VideoParameters)
    (_audio : AudioParameters) (spawn : Except Error Nat) :
    stream × Option Error × List Effect :=
  let args := s.startArgs K video
  match spawn with
  | Except.ok pid => ({ s with cmd := some ⟨args, pid⟩ }, none, [Effect.spawn args pid])
  | Except.error err => (s, some err, [Effect.spawnFailed args])

/-- Go `stream.suspend`: `s.cmd.Process.Signal(syscall.SIGSTOP)`, which dereferences `s.cmd`. -/
def stream.suspend (s : stream) : Except Fault (List Effect) :=
  match s.cmd with
  | some c => Except.ok [Effect.signal c.pid Signal.SIGSTOP]
  | none => Except.error Fault.nilPointerDereference

/-- Go `stream.resume`: `s.cmd.Process.Signal(syscall.SIGCONT)`, which dereferences `s.cmd`. -/
def stream.resume (s : stream) : Except Fault (List Effect) :=
  match s.cmd with
  | some c => Except.ok [Effect.signal c.pid Signal.SIGCONT]
  | none => Except.error Fault.nilPointerDereference

/-- Go `stream.reconfigure`: a debug log when a process is attached, and `nil`. -/
def stream.reconfigure (_s : stream) (_video : VideoParameters) (_audio : AudioParameters) :
    Option Error :=
  none

/-- Go `New`. -/
def New (cfg : Config) : ffmpeg :=
  { cfg := cfg
    loop :=
      if cfg.LoopbackFilename ≠ "" then
        some (NewLoopback cfg.InputDevice cfg.InputFilename cfg.LoopbackFilename)
      else none
    streams := ∅
    snapshot := none }

/-- Go `ffmpeg.videoInputDevice`. -/
def ffmpeg.videoInputDevice (f : ffmpeg) : String := f.cfg.InputDevice

/-- Go `ffmpeg.videoInputFilename`. -/
def ffmpeg.videoInputFilename (f : ffmpeg) : String :=
  if f.cfg.LoopbackFilename ≠ "" then f.cfg.LoopbackFilename else f.cfg.InputFilename

/-- Go `ffmpeg.getStream`. -/
def ffmpeg.getStream (f : ffmpeg) (id : StreamID) : Except Error stream :=
  match f.streams.lookup id with
  | some s => Except.ok s
  | none => Except.error (Error.StreamNotFoundError id)

/-- Go `ffmpeg.startLoopback`; an error of `f.loop.Start()` is only logged. -/
def ffmpeg.startLoopback (f : ffmpeg) (loopOk : Bool) : ffmpeg × List Effect :=
  match f.loop with
  | some l => ({ f with loop := some (l.Start loopOk).1 }, [Effect.loopbackStart])
  | none => (f, [])

/-- The tail shared by Go `ffmpeg.Stop` and `ffmpeg.Snapshot`: with a loopback device, return as
soon as a session of the registry is active, else call `f.loop.Stop()`. -/
def ffmpeg.stopLoopbackIfIdle (f : ffmpeg) : ffmpeg × List Effect :=
  match f.loop with
  | some l =>
    if f.streams.entries.any (fun e => e.2.isActive) then (f, [])
    else ({ f with loop := some l.Stop }, [Effect.loopbackStop])
  | none => (f, [])

/-- Go `ffmpeg.PrepareNewStream`. -/
def ffmpeg.PrepareNewStream (f : ffmpeg) (req : SetupEndpoints) (resp : SetupEndpointsResponse) :
    Outcome StreamID :=
  let id : StreamID := ⟨req.SessionId⟩
  let s : stream :=
    ⟨f.videoInputDevice, f.videoInputFilename, f.cfg.H264Decoder, f.cfg.H264Encoder,
      f.cfg.MinVideoBitrate, req, resp, none⟩
  { state := { f with streams := f.streams.insert id s }, ret := id, effects := [] }

/-- Go `ffmpeg.ActiveStreams`: `len(f.streams)`. -/
def ffmpeg.ActiveStreams (f : ffmpeg) : Nat := f.streams.entries.length

/-- Go `ffmpeg.Start`.  `loopOk` and `spawn` are the results of the two external calls. -/
def ffmpeg.Start (K : RtpConstants) (f : ffmpeg) (id : StreamID) (video : VideoParameters)
    (audio : AudioParameters) (loopOk : Bool) (spawn : Except Error Nat) :
    Outcome (Option Error) :=
  match f.getStream id with
  | Except.error err => { state := f, ret := some err, effects := [] }
  | Except.ok s =>
    let (f1, e1) := f.startLoopback loopOk
    let (s1, err, e2) := s.start K video audio spawn
    { state := { f1 with streams := f1.streams.replace id s1 }, ret := err, effects := e1 ++ e2 }

/-- Go `ffmpeg.Stop`. -/
def ffmpeg.Stop (f : ffmpeg) (id : StreamID) : Outcome Unit :=
  match f.getStream id with
  | Except.error _ => { state := f, ret := (), effects := [] }
  | Except.ok s =>
    let (_, e1) := s.stop
    let f1 : ffmpeg := { f with streams := f.streams.erase id }
    let (f2, e2) := f1.stopLoopbackIfIdle
    { state := f2, ret := (), effects := e1 ++ e2 }

/-- Go `ffmpeg.Suspend`; a panic of `s.suspend()` propagates. -/
def ffmpeg.Suspend (f : ffmpeg) (id : StreamID) : Except Fault (Outcome Unit) :=
  match f.getStream id with
  | Except.error _ => Except.ok { state := f, ret := (), effects := [] }
  | Except.ok s =>
    match s.suspend with
    | Except.ok e => Except.ok { state := f, ret := (), effects := e }
    | Except.error p => Except.error p

/-- Go `ffmpeg.Resume`; a panic of `s.resume()` propagates. -/
def ffmpeg.Resume (f : ffmpeg) (id : StreamID) : Except Fault (Outcome Unit) :=
  match f.getStream id with
  | Except.error _ => Except.ok { state := f, ret := (), effects := [] }
  | Except.ok s =>
    match s.resume with
    | Except.ok e => Except.ok { state := f, ret := (), effects := e }
    | Except.error p => Except.error p

/-- Go `ffmpeg.Reconfigure`. -/
def ffmpeg.Reconfigure (f : ffmpeg) (id : StreamID) (video : VideoParameters)
    (audio : AudioParameters) : Outcome (Option Error) :=
  match f.getStream id with
  | Except.error err => { state := f, ret := some err, effects := [] }
  | Except.ok s => { state := f, ret := s.reconfigure video audio, effects := [] }

/-- Go `ffmpeg.RecentSnapshot`. -/
def ffmpeg.RecentSnapshot (f : ffmpeg) (_width _height : Nat) : Option Snapshot := f.snapshot

/-- Go `ffmpeg.Snapshot`.  `shot` and `err` are what the call of `snapshot(...)` of
`ffmpeg/snapshot.go` returns. -/
def ffmpeg.Snapshot (f : ffmpeg) (width height : Nat) (loopOk : Bool)
    (shot : Option Snapshot) (err : Option Error) : Outcome (Option Snapshot × Option Error) :=
  let (f1, e1) := f.startLoopback loopOk
  let e2 := [Effect.capture width height f1.videoInputDevice f1.videoInputFilename]
  let f2 : ffmpeg := { f1 with snapshot := shot }
  let (f3, e3) := f2.stopLoopbackIfIdle
  { state := f3, ret := (shot, err), effects := e1 ++ e2 ++ e3 }

/-- The registry after `PrepareNewStream` for each pair of a list, in order. -/
def prepareAll (f : ffmpeg) : List (SetupEndpoints × SetupEndpointsResponse) → ffmpeg
  | [] => f
  | r :: rs => prepareAll (f.PrepareNewStream r.1 r.2).state rs

/-! ## Sample inputs -/

/-- A setup request with session id `S1` from an IPv4 controller. -/
def demoReq : SetupEndpoints :=
  ⟨[83, 49], ⟨0, "192.168.1.20", 50000, 50002⟩, ⟨"a2V5c2FsdA=="⟩, ⟨"YXVkaW8="⟩⟩

/-- The response to `demoReq`. -/
def demoResp : SetupEndpointsResponse := ⟨[83, 49], 1234, 5678⟩

/-- A prepared session on a Linux device without loopback, with a bitrate floor of 300 kbps. -/
def demoStream : stream :=
  ⟨"v4l2", "/dev/video0", "", "h264_v4l2m2m", 300, demoReq, demoResp, none⟩

/-- H264 video of width 1280 with negotiated bitrate 0 and no negotiated level. -/
def demoVideo : VideoParameters := ⟨0, ⟨[]⟩, ⟨1280, 720, 30⟩, ⟨99, 0⟩⟩

/-- The video of `demoVideo` with one negotiated level, of a value outside the three known
ones. -/
def oddLevelVideo : VideoParameters := { demoVideo with CodecParams := ⟨[⟨9⟩]⟩ }

/-- Audio parameters; the package does not read them. -/
def demoAudio : AudioParameters := ⟨0⟩

/-- The configuration of a Linux device without loopback. -/
def demoConfig : Config :=
  ⟨"v4l2", "/dev/video0", "", "", "h264_v4l2m2m", 300, false⟩

/-- A fresh registry on which `PrepareNewStream` was called once, with session id `S1`. -/
def demoRegistry : ffmpeg := ((New demoConfig).PrepareNewStream demoReq demoResp).state

/-- The request `demoReq` under the session id `S2`. -/
def demoReq2 : SetupEndpoints := { demoReq with SessionId := [83, 50] }

/-! ## Sequences of operations -/

/-- One call into the registry, with the results of the external calls it makes. -/
inductive Op where
  | prepare (req : SetupEndpoints) (resp : SetupEndpointsResponse)
  | start (id : StreamID) (video : VideoParameters) (audio : AudioParameters) (loopOk : Bool)
      (spawn : Except Error Nat)
  | stop (id : StreamID)
  | suspend (id : StreamID)
  | resume (id : StreamID)
  | reconfigure (id : StreamID) (video : VideoParameters) (audio : AudioParameters)
  | snapshot (width height : Nat) (loopOk : Bool) (shot : Option Snapshot) (err : Option Error)

/-- The call brings the loopback device up when it has to: `f.loop.Start()` does not fail. -/
def Op.loopOk : Op → Bool
  | Op.start _ _ _ loopOk _ => loopOk
  | Op.snapshot _ _ loopOk _ _ => loopOk
  | _ => true

/-- The call is not a `Snapshot`. -/
def Op.notSnapshot : Op → Bool
  | Op.snapshot _ _ _ _ _ => false
  | _ => true

/-- One call as an atomic step: the registry afterwards and the effects performed, or the panic
that ends the program. -/
def Op.run (K : RtpConstants) (f : ffmpeg) : Op → Except Fault (ffmpeg × List Effect)
  | Op.prepare req resp =>
    Except.ok ((f.PrepareNewStream req resp).state, (f.PrepareNewStream req resp).effects)
  | Op.start id video audio loopOk spawn =>
    Except.ok ((f.Start K id video audio loopOk spawn).state,
      (f.Start K id video audio loopOk spawn).effects)
  | Op.stop id => Except.ok ((f.Stop id).state, (f.Stop id).effects)
  | Op.suspend id =>
    match f.Suspend id with
    | Except.ok o => Except.ok (o.state, o.effects)
    | Except.error p => Except.error p
  | Op.resume id =>
    match f.Resume id with
    | Except.ok o => Except.ok (o.state, o.effects)
    | Except.error p => Except.error p
  | Op.reconfigure id video audio =>
    Except.ok ((f.Reconfigure id video audio).state, (f.Reconfigure id video audio).effects)
  | Op.snapshot width height loopOk shot err =>
    Except.ok ((f.Snapshot width height loopOk shot err).state,
      (f.Snapshot width height loopOk shot err).effects)

/-- A sequence of calls, one after the other: the registry at the end and all the effects. -/
def runOps (K : RtpConstants) : ffmpeg → List Op → Except Fault (ffmpeg × List Effect)
  | f, [] => Except.ok (f, [])
  | f, op :: ops =>
    match op.run K f with
    | Except.error p => Except.error p
    | Except.ok (f1, e1) =>
      match runOps K f1 ops with
      | Except.error p => Except.error p
      | Except.ok (f2, e2) => Except.ok (f2, e1 ++ e2)

/-- Some session of the registry has a process handle: the test of the loops in `ffmpeg.Stop`
and `ffmpeg.Snapshot`. -/
def ffmpeg.anyActive (f : ffmpeg) : Bool := f.streams.entries.any (fun e => e.2.isActive)

/-- The loopback device of the registry is bridging. -/
def ffmpeg.loopRunning (f : ffmpeg) : Bool :=
  match f.loop with
  | some l => l.running
  | none => false

/-- The processes held as the handle of some session of the registry. -/
def ffmpeg.handles (f : ffmpeg) : List Nat :=
  f.streams.entries.filterMap (fun e => e.2.cmd.map Cmd.pid)

/-- The encoder processes alive after a list of effects, from those alive before: a spawn adds
its process, the wait of `stream.stop` removes the one it terminated. -/
def liveAfter : List Nat → List Effect → List Nat
  | live, [] => live
  | live, Effect.spawn _ pid :: es => liveAfter (pid :: live) es
  | live, Effect.wait pid :: es => liveAfter (live.filter (fun p => p ≠ pid)) es
  | live, _ :: es => liveAfter live es

/-- The configuration of a Linux device with the loopback `/dev/video99`. -/
def loopConfig : Config :=
  ⟨"v4l2", "/dev/video0", "/dev/video99", "", "h264_v4l2m2m", 300, false⟩

/-- The response to `demoReq2`. -/
def demoResp2 : SetupEndpointsResponse := ⟨[83, 50], 4321, 8765⟩

/-- The id of the session `S1`. -/
def idS1 : StreamID := ⟨[83, 49]⟩

/-- The id of the session `S2`. -/
def idS2 : StreamID := ⟨[83, 50]⟩

/-- The calls that prepare, start and stop the session `S1`; the spawn gives the process 7. -/
def startStopOps : List Op :=
  [Op.prepare demoReq demoResp, Op.start idS1 demoVideo demoAudio true (Except.ok 7),
    Op.stop idS1]

/-- The video of `demoVideo` with a codec type other than H264. -/
def otherCodecVideo : VideoParameters := { demoVideo with CodecType := 1 }

/-- A prepared session on a Mac, whose input device is `avfoundation`. -/
def macStream : stream :=
  ⟨"avfoundation", "default", "", "h264_videotoolbox", 0, demoReq, demoResp, none⟩

/-- The video of `demoVideo` with a negotiated framerate of 15. -/
def slowVideo : VideoParameters := { demoVideo with Attributes := ⟨1280, 720, 15⟩ }

/-- The calls that prepare the sessions `S1` and `S2` and start both, as the processes 7 and
8. -/
def twoStartedOps : List Op :=
  [Op.prepare demoReq demoResp, Op.prepare demoReq2 demoResp2,
    Op.start idS1 demoVideo demoAudio true (Except.ok 7),
    Op.start idS2 demoVideo demoAudio true (Except.ok 8)]

/-- The registry with loopback after `twoStartedOps`: `S1` and `S2` are both active. -/
def twoStarted : ffmpeg :=
  match runOps hapConstants (New loopConfig) twoStartedOps with
  | Except.ok (f, _) => f
  | Except.error _ => New loopConfig

/-- The invariant of a registry with a loopback device: the device exists, and it is bridging
whenever some session of the registry has a process handle. -/
def ffmpeg.LoopbackInv (f : ffmpeg) : Prop :=
  f.loop.isSome = true ∧ (f.anyActive = true → f.loopRunning = true)

/-- The calls that prepare the session `S1` and start it twice, as the processes 7 and 8. -/
def restartOps : List Op :=
  [Op.prepare demoReq demoResp, Op.start idS1 demoVideo demoAudio true (Except.ok 7),
    Op.start idS1 demoVideo demoAudio true (Except.ok 8)]

/-- The calls that prepare the session `S1`, start it as the process 7 and prepare a session
with the same id again. -/
def reprepareOps : List Op :=
  [Op.prepare demoReq demoResp, Op.start idS1 demoVideo demoAudio true (Except.ok 7),
    Op.prepare demoReq demoResp]

/-! ## Facts about `Split` and decimal rendering -/


theorem splitChars_ne_nil (sep : Char) (l : List Char) : splitChars sep l ≠ [] := by
  induction l with
  | nil => simp [splitChars]
  | cons c cs ih =>
    unfold splitChars
    split
    · simp
    · split
      · simp
      · simp

theorem splitChars_of_not_mem (sep : Char) (w : List Char) (h : sep ∉ w) :
    splitChars sep w = [w] := by
  induction w with
  | nil => rfl
  | cons c cs ih =>
    have hc : c ≠ sep := fun e => h (by simp [e])
    have hcs : sep ∉ cs := fun e => h (by simp [e])
    simp [splitChars, hc, ih hcs]

theorem splitChars_append_sep (sep : Char) (a b : List Char) :
    splitChars sep (a ++ sep :: b) = splitChars sep a ++ splitChars sep b := by
  induction a with
  | nil => simp [splitChars]
  | cons c cs ih =>
    by_cases hc : c = sep
    · simp [splitChars, hc, ih]
    · rw [List.cons_append]
      simp only [splitChars, hc, if_false]
      rw [ih]
      cases h : splitChars sep cs with
      | nil => exact absurd h (splitChars_ne_nil sep cs)
      | cons w ws => rfl

theorem Split_of_not_mem (w : String) (h : ' ' ∉ w.data) : Split w = [w] := by
  simp [Split, splitChars_of_not_mem ' ' w.data h]

theorem Split_append_space (a b : String) : Split (a ++ " " ++ b) = Split a ++ Split b := by
  have h : (a ++ " " ++ b).data = a.data ++ ' ' :: b.data := by
    simp [String.data_append]
  simp [Split, h, splitChars_append_sep]

theorem Split_joinSp (a : String) (l : List String) :
    Split (joinSp (a :: l)) = splitAll (a :: l) := by
  induction l generalizing a with
  | nil => simp [joinSp, splitAll]
  | cons b rest ih =>
    rw [joinSp, Split_append_space, ih b]
    rfl


theorem digitChar_ne_space (m : Nat) (h : m < 10) : Nat.digitChar m ≠ ' ' := by
  interval_cases m <;> decide

theorem toDigitsCore_no_space (fuel n : Nat) (ds : List Char) (h : ' ' ∉ ds) :
    ' ' ∉ Nat.toDigitsCore 10 fuel n ds := by
  induction fuel generalizing n ds with
  | zero => simpa [Nat.toDigitsCore] using h
  | succ f ih =>
    have hd : ' ' ∉ Nat.digitChar (n % 10) :: ds := by
      intro hm
      rcases List.mem_cons.mp hm with e | e
      · exact digitChar_ne_space (n % 10) (Nat.mod_lt _ (by decide)) e.symm
      · exact h e
    unfold Nat.toDigitsCore
    dsimp only
    split
    · exact hd
    · exact ih _ _ hd

theorem natToString_no_space (n : Nat) : ' ' ∉ (toString n).data := by
  show ' ' ∉ (Nat.repr n).data
  simp only [Nat.repr, List.asString, Nat.toDigits]
  exact toDigitsCore_no_space _ _ _ (by simp)

theorem intToString_no_space (i : Int) : ' ' ∉ (toString i).data := by
  cases i with
  | ofNat m => exact natToString_no_space m
  | negSucc m =>
    show ' ' ∉ ("-" ++ toString (m + 1)).data
    rw [String.data_append]
    intro hm
    rcases List.mem_append.mp hm with e | e
    · revert e; decide
    · exact natToString_no_space _ e


theorem splitAll_append (l₁ l₂ : List String) :
    splitAll (l₁ ++ l₂) = splitAll l₁ ++ splitAll l₂ := by
  induction l₁ with
  | nil => rfl
  | cons a rest ih => simp [splitAll, ih]

set_option maxRecDepth 8000 in
theorem stream.ffmpegVideo_eq_joinSp (K : RtpConstants) (s : stream) (video : VideoParameters) :
    s.ffmpegVideo K video = joinSp (s.words K video) := by
  apply String.ext
  by_cases h : video.CodecType = K.VideoCodecType_H264 ∧ s.h264Decoder ≠ ""
  · have h1 : s.videoDecoderOption K video = " -codec:v " ++ s.h264Decoder := by
      simp [stream.videoDecoderOption, h.1, h.2]
    simp only [stream.ffmpegVideo, stream.words, stream.decoderWords, stream.url, h1, h,
      and_self, not_false_eq_true, if_true, List.cons_append, List.nil_append, joinSp,
      String.data_append, List.append_assoc, ne_eq]
  · have h1 : s.videoDecoderOption K video = "" := by
      unfold stream.videoDecoderOption
      split
      · rename_i hc
        split
        · rename_i hd
          exact absurd ⟨hc, hd⟩ h
        · rfl
      · rfl
    simp only [stream.ffmpegVideo, stream.words, stream.decoderWords, stream.url, h1, h,
      if_false, List.cons_append, List.nil_append, joinSp,
      String.data_append, List.append_assoc, List.append_nil]

theorem stream.startArgs_eq (K : RtpConstants) (s : stream) (video : VideoParameters) :
    s.startArgs K video = splitAll (s.words K video) := by
  unfold stream.startArgs
  rw [stream.ffmpegVideo_eq_joinSp]
  cases h : s.words K video with
  | nil => simp [stream.words] at h
  | cons a l => exact Split_joinSp a l


/-! ## The command builder -/

theorem adjacent_splitAll (A B : List String) (a b : String)
    (ha : ' ' ∉ a.data) (hb : ' ' ∉ b.data) :
    Adjacent a b (splitAll (A ++ a :: b :: B)) := by
  refine ⟨splitAll A, splitAll B, ?_⟩
  rw [splitAll_append]
  simp [splitAll, Split_of_not_mem a ha, Split_of_not_mem b hb]

theorem videoLevelLoop_no_space (K : RtpConstants) (ls : List VideoCodecLevel) :
    ' ' ∉ (videoLevelLoop K ls).data := by
  induction ls with
  | nil => simp [videoLevelLoop]
  | cons l rest ih =>
    unfold videoLevelLoop
    split
    · decide
    · split
      · decide
      · split
        · decide
        · exact ih

/-- C1: `videoBitrate` is the larger of the negotiated bitrate and the configured floor, in both
orders of the two, and the list built by `stream.start` holds `-b:v` immediately followed by the
decimal rendering of that value with `k` appended. -/
theorem videoBitrate_is_max_and_built (K : RtpConstants) (s : stream)
    (video : VideoParameters) :
    s.videoBitrate video = max (video.RTP.Bitrate : Int) s.minVideoBitrate ∧
    (s.minVideoBitrate ≤ (video.RTP.Bitrate : Int) →
      s.videoBitrate video = (video.RTP.Bitrate : Int)) ∧
    ((video.RTP.Bitrate : Int) < s.minVideoBitrate →
      s.videoBitrate video = s.minVideoBitrate) ∧
    Adjacent "-b:v" (toString (s.videoBitrate video) ++ "k") (s.startArgs K video) := by
  refine ⟨?_, ?_, ?_, ?_⟩
  · unfold stream.videoBitrate
    dsimp only
    split
    · rename_i h
      exact (max_eq_right (le_of_lt h)).symm
    · rename_i h
      exact (max_eq_left (not_lt.mp h)).symm
  · intro h
    unfold stream.videoBitrate
    dsimp only
    rw [if_neg (not_lt.mpr h)]
  · intro h
    unfold stream.videoBitrate
    dsimp only
    rw [if_pos h]
  · have hk : ' ' ∉ (toString (s.videoBitrate video) ++ "k").data := by
      rw [String.data_append]
      intro hm
      rcases List.mem_append.mp hm with e | e
      · exact intToString_no_space _ e
      · revert e; decide
    have hw : s.words K video =
        (["-re", "-i", s.inputFilename, "-allow_sw", "1",
            "-framerate", toString (s.framerate video.Attributes)] ++
          s.decoderWords K video ++
          ["-an", "-codec:v", s.videoEncoder K video,
            "-pix_fmt", "yuv420p", "-vsync", "vfr", "-r", "10",
            "-video_size", toString video.Attributes.Width ++ ":-2",
            "-framerate", toString video.Attributes.Framerate,
            "-level:v", videoLevel K video.CodecParams, "-f", "rawvideo"]) ++
        "-b:v" :: (toString (s.videoBitrate video) ++ "k") ::
          ["-payload_type", toString video.RTP.PayloadType,
            "-ssrc", toString s.resp.SsrcVideo,
            "-f", "rtp", "-srtp_out_suite", "AES_CM_128_HMAC_SHA1_80",
            "-srtp_out_params", s.req.Video.SrtpKey, s.url K] := by
      simp [stream.words]
    rw [stream.startArgs_eq, hw]
    exact adjacent_splitAll _ _ _ _ (by decide) hk

/-- C1 at negotiated bitrate 0 and floor 300: the value is the floor and the list holds
`-b:v 300k`. -/
theorem videoBitrate_is_max_and_built_witness :
    demoStream.videoBitrate demoVideo = 300 ∧
    Adjacent "-b:v" "300k" (demoStream.startArgs hapConstants demoVideo) :=
  ⟨(videoBitrate_is_max_and_built hapConstants demoStream demoVideo).2.2.1 (by decide),
   (videoBitrate_is_max_and_built hapConstants demoStream demoVideo).2.2.2⟩

theorem knownLevel_eq_false_iff (K : RtpConstants) (l : VideoCodecLevel) :
    knownLevel K l = false ↔
      l.Level ≠ K.VideoCodecLevel3_1 ∧ l.Level ≠ K.VideoCodecLevel3_2 ∧
        l.Level ≠ K.VideoCodecLevel4 := by
  simp [knownLevel, and_assoc]

theorem videoLevelLoop_eq_empty_iff (K : RtpConstants) (ls : List VideoCodecLevel) :
    videoLevelLoop K ls = "" ↔ ∀ l ∈ ls, knownLevel K l = false := by
  induction ls with
  | nil => simp [videoLevelLoop]
  | cons l rest ih =>
    have key : ∀ (str : String), str ≠ "" → knownLevel K l ≠ false →
        (str = "" ↔ ∀ x ∈ l :: rest, knownLevel K x = false) := by
      intro str hs hk
      constructor
      · intro e
        exact absurd e hs
      · intro hall
        exact absurd (hall l (List.mem_cons_self l rest)) hk
    unfold videoLevelLoop
    split_ifs with h1 h2 h3
    · exact key _ (by decide) (fun c => ((knownLevel_eq_false_iff K l).mp c).1 h1)
    · exact key _ (by decide) (fun c => ((knownLevel_eq_false_iff K l).mp c).2.1 h2)
    · exact key _ (by decide) (fun c => ((knownLevel_eq_false_iff K l).mp c).2.2 h3)
    · rw [ih, List.forall_mem_cons]
      constructor
      · intro h
        exact ⟨(knownLevel_eq_false_iff K l).mpr ⟨h1, h2, h3⟩, h⟩
      · intro h
        exact h.2

theorem videoLevelLoop_find (K : RtpConstants) (ls : List VideoCodecLevel) (l : VideoCodecLevel)
    (h : ls.find? (knownLevel K) = some l) :
    videoLevelLoop K ls =
      if l.Level = K.VideoCodecLevel3_1 then "3.1"
      else if l.Level = K.VideoCodecLevel3_2 then "3.2"
      else "4.0" := by
  induction ls with
  | nil => simp at h
  | cons x rest ih =>
    rw [List.find?_cons] at h
    by_cases hx : knownLevel K x = true
    · rw [hx] at h
      have hxl : x = l := by simpa using h
      rw [← hxl]
      unfold videoLevelLoop
      split_ifs with h1 h2 h3
      · rfl
      · rfl
      · rfl
      · have hf := (knownLevel_eq_false_iff K x).mpr ⟨h1, h2, h3⟩
        rw [hx] at hf
        exact absurd hf (by decide)
    · have hx' : knownLevel K x = false := by simpa using hx
      rw [hx'] at h
      have hn := (knownLevel_eq_false_iff K x).mp hx'
      unfold videoLevelLoop
      rw [if_neg hn.1, if_neg hn.2.1, if_neg hn.2.2]
      exact ih h

/-- C2: with the three level constants distinct, `videoLevel` returns `3.1`, `3.2` or `4.0`
according to the first entry of the list whose level is one of the three known values, and it
returns the empty string exactly when no entry has one of them. -/
theorem videoLevel_first_known (K : RtpConstants)
    (h12 : K.VideoCodecLevel3_1 ≠ K.VideoCodecLevel3_2)
    (h14 : K.VideoCodecLevel3_1 ≠ K.VideoCodecLevel4)
    (h24 : K.VideoCodecLevel3_2 ≠ K.VideoCodecLevel4)
    (param : VideoCodecParameters) :
    (∀ l, param.Levels.find? (knownLevel K) = some l →
      (l.Level = K.VideoCodecLevel3_1 → videoLevel K param = "3.1") ∧
      (l.Level = K.VideoCodecLevel3_2 → videoLevel K param = "3.2") ∧
      (l.Level = K.VideoCodecLevel4 → videoLevel K param = "4.0")) ∧
    (videoLevel K param = "" ↔ ∀ l ∈ param.Levels, knownLevel K l = false) ∧
    (videoLevel K param = "" ↔ param.Levels.find? (knownLevel K) = none) := by
  refine ⟨?_, videoLevelLoop_eq_empty_iff K param.Levels, ?_⟩
  · intro l hl
    have := videoLevelLoop_find K param.Levels l hl
    unfold videoLevel
    refine ⟨?_, ?_, ?_⟩
    · intro e
      rw [this, if_pos e]
    · intro e
      rw [this, if_neg (by rw [e]; exact fun c => h12 c.symm), if_pos e]
    · intro e
      rw [this, if_neg (by rw [e]; exact fun c => h14 c.symm),
        if_neg (by rw [e]; exact fun c => h24 c.symm)]
  · rw [List.find?_eq_none]
    unfold videoLevel
    rw [videoLevelLoop_eq_empty_iff]
    simp

/-- C2 on the levels 7, 3.2, 3.1: the first known entry is the second one. -/
theorem videoLevel_first_known_witness :
    videoLevel hapConstants ⟨[⟨7⟩, ⟨1⟩, ⟨0⟩]⟩ = "3.2" :=
  ((videoLevel_first_known hapConstants (by decide) (by decide) (by decide)
    ⟨[⟨7⟩, ⟨1⟩, ⟨0⟩]⟩).1 ⟨1⟩ (by decide)).2.1 rfl


/-- C3 as stated fails: with the only negotiated level an unknown one, the list built by `stream.start` holds
the element `-level:v` and an empty-string element. -/
theorem level_flag_not_omitted_counterexample :
    (∀ l ∈ oddLevelVideo.CodecParams.Levels, knownLevel hapConstants l = false) ∧
    "-level:v" ∈ demoStream.startArgs hapConstants oddLevelVideo ∧
    "" ∈ demoStream.startArgs hapConstants oddLevelVideo := by
  decide

/-- C3, amended: when the negotiated levels hold none of the three known values, the list built
by `stream.start` holds `-level:v` immediately followed by an empty-string element. -/
theorem level_flag_with_empty_value (K : RtpConstants) (s : stream) (video : VideoParameters)
    (h : ∀ l ∈ video.CodecParams.Levels, knownLevel K l = false) :
    Adjacent "-level:v" "" (s.startArgs K video) := by
  have hv : videoLevel K video.CodecParams = "" :=
    (videoLevelLoop_eq_empty_iff K video.CodecParams.Levels).mpr h
  have hw : s.words K video =
      (["-re", "-i", s.inputFilename, "-allow_sw", "1",
          "-framerate", toString (s.framerate video.Attributes)] ++
        s.decoderWords K video ++
        ["-an", "-codec:v", s.videoEncoder K video,
          "-pix_fmt", "yuv420p", "-vsync", "vfr", "-r", "10",
          "-video_size", toString video.Attributes.Width ++ ":-2",
          "-framerate", toString video.Attributes.Framerate]) ++
      "-level:v" :: "" ::
        ["-f", "rawvideo", "-b:v", toString (s.videoBitrate video) ++ "k",
          "-payload_type", toString video.RTP.PayloadType,
          "-ssrc", toString s.resp.SsrcVideo,
          "-f", "rtp", "-srtp_out_suite", "AES_CM_128_HMAC_SHA1_80",
          "-srtp_out_params", s.req.Video.SrtpKey, s.url K] := by
    simp [stream.words, hv]
  rw [stream.startArgs_eq, hw]
  exact adjacent_splitAll _ _ _ _ (by decide) (by decide)

/-- C3 amended, on a session with no negotiated level. -/
theorem level_flag_with_empty_value_witness :
    Adjacent "-level:v" "" (demoStream.startArgs hapConstants demoVideo) :=
  level_flag_with_empty_value hapConstants demoStream demoVideo (by decide)

/-- C4: `videoMTU` is `1378` for IPv4, `1228` for IPv6 and `1378` for every other IP version, and
the IPv6 value is the rendering of a strictly smaller number than the IPv4 value. -/
theorem videoMTU_table (K : RtpConstants) (h46 : K.IPAddrVersionv4 ≠ K.IPAddrVersionv6) :
    (∀ setup : SetupEndpoints, setup.ControllerAddr.IPVersion = K.IPAddrVersionv4 →
      videoMTU K setup = "1378") ∧
    (∀ setup : SetupEndpoints, setup.ControllerAddr.IPVersion = K.IPAddrVersionv6 →
      videoMTU K setup = "1228") ∧
    (∀ setup : SetupEndpoints, setup.ControllerAddr.IPVersion ≠ K.IPAddrVersionv4 →
      setup.ControllerAddr.IPVersion ≠ K.IPAddrVersionv6 → videoMTU K setup = "1378") ∧
    (∀ s4 s6 : SetupEndpoints, s4.ControllerAddr.IPVersion = K.IPAddrVersionv4 →
      s6.ControllerAddr.IPVersion = K.IPAddrVersionv6 →
      videoMTU K s4 = toString (1378 : Nat) ∧ videoMTU K s6 = toString (1228 : Nat) ∧
        (1228 : Nat) < 1378) := by
  have h4 : ∀ setup : SetupEndpoints, setup.ControllerAddr.IPVersion = K.IPAddrVersionv4 →
      videoMTU K setup = "1378" := by
    intro setup e
    unfold videoMTU
    rw [if_pos e]
  have h6 : ∀ setup : SetupEndpoints, setup.ControllerAddr.IPVersion = K.IPAddrVersionv6 →
      videoMTU K setup = "1228" := by
    intro setup e
    unfold videoMTU
    rw [if_neg (by rw [e]; exact fun c => h46 c.symm), if_pos e]
  refine ⟨h4, h6, ?_, ?_⟩
  · intro setup n4 n6
    unfold videoMTU
    rw [if_neg n4, if_neg n6]
  · intro s4 s6 e4 e6
    rw [h4 s4 e4, h6 s6 e6]
    decide

/-- C4 on an IPv6 request. -/
theorem videoMTU_table_witness :
    videoMTU hapConstants { demoReq with ControllerAddr := ⟨1, "fe80::1", 50000, 50002⟩ } =
      "1228" :=
  (videoMTU_table hapConstants (by decide)).2.1 _ rfl

theorem splitAll_of_no_space (A : List String) (h : ∀ w ∈ A, ' ' ∉ w.data) :
    splitAll A = A := by
  induction A with
  | nil => rfl
  | cons a rest ih =>
    rw [splitAll, Split_of_not_mem a (h a (List.mem_cons_self a rest)),
      ih (fun w hw => h w (List.mem_cons_of_mem a hw))]
    rfl

theorem stream.videoEncoder_no_space (K : RtpConstants) (s : stream) (video : VideoParameters)
    (he : ' ' ∉ s.h264Encoder.data) : ' ' ∉ (s.videoEncoder K video).data := by
  unfold stream.videoEncoder
  split
  · exact he
  · decide

theorem stream.decoderWords_no_space (K : RtpConstants) (s : stream) (video : VideoParameters)
    (hd : ' ' ∉ s.h264Decoder.data) : ∀ w ∈ s.decoderWords K video, ' ' ∉ w.data := by
  unfold stream.decoderWords
  split
  · intro w hw
    rcases List.mem_cons.mp hw with e | e
    · rw [e]; decide
    · rw [List.mem_singleton.mp e]; exact hd
  · intro w hw
    exact absurd hw (List.not_mem_nil w)

/-- C5: when the configured input filename, encoder and decoder hold no space, the list built by
`stream.start` begins with the input, decoder and encoder options, each word one element, and
then holds `-video_size` immediately followed by the decimal rendering of the negotiated width
with `:-2` appended. -/
theorem video_size_argument (K : RtpConstants) (s : stream) (video : VideoParameters)
    (hf : ' ' ∉ s.inputFilename.data) (he : ' ' ∉ s.h264Encoder.data)
    (hd : ' ' ∉ s.h264Decoder.data) :
    (∃ post, s.startArgs K video =
      (["-re", "-i", s.inputFilename, "-allow_sw", "1",
          "-framerate", toString (s.framerate video.Attributes)] ++
        s.decoderWords K video ++
        ["-an", "-codec:v", s.videoEncoder K video,
          "-pix_fmt", "yuv420p", "-vsync", "vfr", "-r", "10"]) ++
      "-video_size" :: (toString video.Attributes.Width ++ ":-2") :: post) ∧
    Adjacent "-video_size" (toString video.Attributes.Width ++ ":-2") (s.startArgs K video) := by
  have hx : ' ' ∉ (toString video.Attributes.Width ++ ":-2").data := by
    rw [String.data_append]
    intro hm
    rcases List.mem_append.mp hm with e | e
    · exact natToString_no_space _ e
    · revert e; decide
  have hw : s.words K video =
      (["-re", "-i", s.inputFilename, "-allow_sw", "1",
          "-framerate", toString (s.framerate video.Attributes)] ++
        s.decoderWords K video ++
        ["-an", "-codec:v", s.videoEncoder K video,
          "-pix_fmt", "yuv420p", "-vsync", "vfr", "-r", "10"]) ++
      "-video_size" :: (toString video.Attributes.Width ++ ":-2") ::
        ["-framerate", toString video.Attributes.Framerate,
          "-level:v", videoLevel K video.CodecParams,
          "-f", "rawvideo", "-b:v", toString (s.videoBitrate video) ++ "k",
          "-payload_type", toString video.RTP.PayloadType,
          "-ssrc", toString s.resp.SsrcVideo,
          "-f", "rtp", "-srtp_out_suite", "AES_CM_128_HMAC_SHA1_80",
          "-srtp_out_params", s.req.Video.SrtpKey, s.url K] := by
    simp [stream.words]
  have hA : ∀ w ∈ (["-re", "-i", s.inputFilename, "-allow_sw", "1",
          "-framerate", toString (s.framerate video.Attributes)] ++
        s.decoderWords K video ++
        ["-an", "-codec:v", s.videoEncoder K video,
          "-pix_fmt", "yuv420p", "-vsync", "vfr", "-r", "10"]), ' ' ∉ w.data := by
    intro w hm
    rcases List.mem_append.mp hm with h1 | h1
    · rcases List.mem_append.mp h1 with h2 | h2
      · simp only [List.mem_cons, List.mem_singleton, List.not_mem_nil, or_false] at h2
        rcases h2 with e | e | e | e | e | e | e
        · rw [e]; decide
        · rw [e]; decide
        · rw [e]; exact hf
        · rw [e]; decide
        · rw [e]; decide
        · rw [e]; decide
        · rw [e]; exact natToString_no_space _
      · exact stream.decoderWords_no_space K s video hd w h2
    · simp only [List.mem_cons, List.mem_singleton, List.not_mem_nil, or_false] at h1
      rcases h1 with e | e | e | e | e | e | e | e | e
      · rw [e]; decide
      · rw [e]; decide
      · rw [e]; exact stream.videoEncoder_no_space K s video he
      · rw [e]; decide
      · rw [e]; decide
      · rw [e]; decide
      · rw [e]; decide
      · rw [e]; decide
      · rw [e]; decide
  constructor
  · refine ⟨splitAll ["-framerate", toString video.Attributes.Framerate,
          "-level:v", videoLevel K video.CodecParams,
          "-f", "rawvideo", "-b:v", toString (s.videoBitrate video) ++ "k",
          "-payload_type", toString video.RTP.PayloadType,
          "-ssrc", toString s.resp.SsrcVideo,
          "-f", "rtp", "-srtp_out_suite", "AES_CM_128_HMAC_SHA1_80",
          "-srtp_out_params", s.req.Video.SrtpKey, s.url K], ?_⟩
    rw [stream.startArgs_eq, hw, splitAll_append, splitAll_of_no_space _ hA, splitAll, splitAll,
      Split_of_not_mem _ hx, Split_of_not_mem "-video_size" (by decide)]
    rfl
  · rw [stream.startArgs_eq, hw]
    exact adjacent_splitAll _ _ _ _ (by decide) hx

/-- C5 at width 1280 on a device without loopback: the element after `-video_size` is
`1280:-2`. -/
theorem video_size_argument_witness :
    Adjacent "-video_size" "1280:-2" (demoStream.startArgs hapConstants demoVideo) :=
  (video_size_argument hapConstants demoStream demoVideo
    (by decide) (by decide) (by decide)).2


/-! ## The session registry -/

theorem ffmpeg.getStream_of_not_mem (f : ffmpeg) (id : StreamID) (h : id ∉ f.streams) :
    f.getStream id = Except.error (Error.StreamNotFoundError id) := by
  unfold ffmpeg.getStream
  rw [AList.lookup_eq_none.mpr h]

theorem ffmpeg.getStream_of_lookup (f : ffmpeg) (id : StreamID) (s : stream)
    (h : f.streams.lookup id = some s) : f.getStream id = Except.ok s := by
  unfold ffmpeg.getStream
  rw [h]

/-- C6: for an id that is not a key of the registry, `Start` and `Reconfigure` return the
`StreamNotFoundError` carrying that id, perform no effect at all (no spawn, no loopback start)
and return the registry as it was: sessions with their process handles, loopback state and
snapshot cache. -/
theorem start_reconfigure_unknown_id (K : RtpConstants) (f : ffmpeg) (id : StreamID)
    (video : VideoParameters) (audio : AudioParameters) (loopOk : Bool)
    (spawn : Except Error Nat) (h : id ∉ f.streams) :
    (f.Start K id video audio loopOk spawn).ret = some (Error.StreamNotFoundError id) ∧
    (f.Start K id video audio loopOk spawn).effects = [] ∧
    (f.Start K id video audio loopOk spawn).state = f ∧
    (f.Reconfigure id video audio).ret = some (Error.StreamNotFoundError id) ∧
    (f.Reconfigure id video audio).effects = [] ∧
    (f.Reconfigure id video audio).state = f := by
  have hg := ffmpeg.getStream_of_not_mem f id h
  simp [ffmpeg.Start, ffmpeg.Reconfigure, hg]

/-- C6 on a registry holding only `S1`: `Start` of `S2` returns the error for `S2` and does
nothing. -/
theorem start_reconfigure_unknown_id_witness :
    (demoRegistry.Start hapConstants ⟨[83, 50]⟩ demoVideo demoAudio true (Except.ok 7)).ret =
      some (Error.StreamNotFoundError ⟨[83, 50]⟩) ∧
    (demoRegistry.Start hapConstants ⟨[83, 50]⟩ demoVideo demoAudio true (Except.ok 7)).effects =
      [] :=
  ⟨(start_reconfigure_unknown_id hapConstants demoRegistry ⟨[83, 50]⟩ demoVideo demoAudio true
      (Except.ok 7) (by decide)).1,
   (start_reconfigure_unknown_id hapConstants demoRegistry ⟨[83, 50]⟩ demoVideo demoAudio true
      (Except.ok 7) (by decide)).2.1⟩

/-- C8: for an id that is not a key of the registry, `Stop`, `Suspend` and `Resume` complete
without panic, perform no effect and return the registry as it was: sessions with their process
handles, loopback state and snapshot cache. -/
theorem stop_suspend_resume_unknown_id (f : ffmpeg) (id : StreamID) (h : id ∉ f.streams) :
    ((f.Stop id).effects = [] ∧ (f.Stop id).state = f) ∧
    (∃ o, f.Suspend id = Except.ok o ∧ o.effects = [] ∧ o.state = f) ∧
    (∃ o, f.Resume id = Except.ok o ∧ o.effects = [] ∧ o.state = f) := by
  have hg := ffmpeg.getStream_of_not_mem f id h
  refine ⟨?_, ?_, ?_⟩
  · simp [ffmpeg.Stop, hg]
  · exact ⟨⟨f, (), []⟩, by simp [ffmpeg.Suspend, hg], rfl, rfl⟩
  · exact ⟨⟨f, (), []⟩, by simp [ffmpeg.Resume, hg], rfl, rfl⟩

/-- C8 on a registry holding only `S1`: `Stop` of `S2` does nothing. -/
theorem stop_suspend_resume_unknown_id_witness :
    (demoRegistry.Stop ⟨[83, 50]⟩).effects = [] ∧ (demoRegistry.Stop ⟨[83, 50]⟩).state = demoRegistry :=
  (stop_suspend_resume_unknown_id demoRegistry ⟨[83, 50]⟩ (by decide)).1

theorem ffmpeg.getStream_of_mem (f : ffmpeg) (id : StreamID) (h : id ∈ f.streams) :
    ∃ s, f.streams.lookup id = some s ∧ f.getStream id = Except.ok s := by
  have hs := AList.lookup_isSome.mpr h
  cases hl : f.streams.lookup id with
  | none => rw [hl] at hs; exact absurd hs (by decide)
  | some s => exact ⟨s, rfl, ffmpeg.getStream_of_lookup f id s hl⟩

theorem ffmpeg.stopLoopbackIfIdle_streams (f : ffmpeg) :
    f.stopLoopbackIfIdle.1.streams = f.streams := by
  unfold ffmpeg.stopLoopbackIfIdle
  split
  · split <;> rfl
  · rfl

theorem ffmpeg.Stop_streams_of_mem (f : ffmpeg) (id : StreamID) (h : id ∈ f.streams) :
    (f.Stop id).state.streams = f.streams.erase id := by
  obtain ⟨s, _, hg⟩ := ffmpeg.getStream_of_mem f id h
  simp only [ffmpeg.Stop, hg]
  exact ffmpeg.stopLoopbackIfIdle_streams _

theorem ffmpeg.ActiveStreams_eq_keys (f : ffmpeg) : f.ActiveStreams = f.streams.keys.length := by
  simp [ffmpeg.ActiveStreams, AList.keys, List.keys]

theorem ffmpeg.Start_keys (K : RtpConstants) (f : ffmpeg) (id : StreamID)
    (video : VideoParameters) (audio : AudioParameters) (loopOk : Bool)
    (spawn : Except Error Nat) :
    (f.Start K id video audio loopOk spawn).state.streams.keys = f.streams.keys := by
  unfold ffmpeg.Start
  cases hg : f.getStream id with
  | error e => rfl
  | ok s =>
    simp only [AList.keys_replace]
    unfold ffmpeg.startLoopback
    split <;> rfl

/-- C7: for an id that is a key of the registry, after `Stop` the id is no longer a key, the
entry under every other id is unchanged and `ActiveStreams` is one less than before; and on a
fresh registry `PrepareNewStream`, `Start`, `Stop` on the returned id leave `ActiveStreams` at 0,
for every configuration, request, response and parameters, whether or not the loopback start or
the spawn succeeds. -/
theorem stop_removes_session (K : RtpConstants) (f : ffmpeg) (id : StreamID)
    (h : id ∈ f.streams) :
    id ∉ (f.Stop id).state.streams ∧
    (∀ id', id' ≠ id → (f.Stop id).state.streams.lookup id' = f.streams.lookup id') ∧
    (f.Stop id).state.ActiveStreams + 1 = f.ActiveStreams ∧
    (∀ (cfg : Config) (req : SetupEndpoints) (resp : SetupEndpointsResponse)
      (video : VideoParameters) (audio : AudioParameters) (loopOk : Bool)
      (spawn : Except Error Nat),
      ((((New cfg).PrepareNewStream req resp).state.Start K
          ((New cfg).PrepareNewStream req resp).ret video audio loopOk spawn).state.Stop
        ((New cfg).PrepareNewStream req resp).ret).state.ActiveStreams = 0) := by
  have hcount : ∀ (g : ffmpeg) (i : StreamID), i ∈ g.streams →
      (g.Stop i).state.ActiveStreams + 1 = g.ActiveStreams := by
    intro g i hi
    rw [ffmpeg.ActiveStreams_eq_keys, ffmpeg.ActiveStreams_eq_keys,
      ffmpeg.Stop_streams_of_mem g i hi, AList.keys_erase,
      List.length_erase_of_mem (AList.mem_keys.mp hi)]
    have : 0 < g.streams.keys.length := List.length_pos_of_mem (AList.mem_keys.mp hi)
    omega
  refine ⟨?_, ?_, hcount f id h, ?_⟩
  · rw [ffmpeg.Stop_streams_of_mem f id h, AList.mem_erase]
    exact fun c => c.1 rfl
  · intro id' hne
    rw [ffmpeg.Stop_streams_of_mem f id h]
    exact AList.lookup_erase_ne hne
  · intro cfg req resp video audio loopOk spawn
    have hk : (((New cfg).PrepareNewStream req resp).state.Start K
        ((New cfg).PrepareNewStream req resp).ret video audio loopOk spawn).state.streams.keys =
        [⟨req.SessionId⟩] := by
      rw [ffmpeg.Start_keys]
      simp [ffmpeg.PrepareNewStream, New, AList.keys_insert]
    have hm : ((New cfg).PrepareNewStream req resp).ret ∈
        (((New cfg).PrepareNewStream req resp).state.Start K
          ((New cfg).PrepareNewStream req resp).ret video audio loopOk spawn).state.streams := by
      rw [AList.mem_keys, hk]
      simp [ffmpeg.PrepareNewStream]
    have h1 := hcount _ _ hm
    rw [ffmpeg.ActiveStreams_eq_keys
      (((New cfg).PrepareNewStream req resp).state.Start K
        ((New cfg).PrepareNewStream req resp).ret video audio loopOk spawn).state, hk] at h1
    simpa using h1

/-- C7 on a registry holding only `S1`: after `Stop` of `S1` no session is registered. -/
theorem stop_removes_session_witness :
    ⟨[83, 49]⟩ ∉ (demoRegistry.Stop ⟨[83, 49]⟩).state.streams ∧
    (demoRegistry.Stop ⟨[83, 49]⟩).state.ActiveStreams + 1 = demoRegistry.ActiveStreams :=
  ⟨(stop_removes_session hapConstants demoRegistry ⟨[83, 49]⟩ (by decide)).1,
   (stop_removes_session hapConstants demoRegistry ⟨[83, 49]⟩ (by decide)).2.2.1⟩

theorem ffmpeg.PrepareNewStream_count (f : ffmpeg) (req : SetupEndpoints)
    (resp : SetupEndpointsResponse) (h : (⟨req.SessionId⟩ : StreamID) ∉ f.streams) :
    (f.PrepareNewStream req resp).state.ActiveStreams = f.ActiveStreams + 1 := by
  unfold ffmpeg.PrepareNewStream ffmpeg.ActiveStreams
  dsimp only
  rw [AList.insert_entries_of_neg h, List.length_cons]

theorem ffmpeg.PrepareNewStream_inactive (f : ffmpeg) (req : SetupEndpoints)
    (resp : SetupEndpointsResponse) (h : ∀ e ∈ f.streams.entries, e.2.isActive = false) :
    ∀ e ∈ (f.PrepareNewStream req resp).state.streams.entries, e.2.isActive = false := by
  intro e he
  simp only [ffmpeg.PrepareNewStream, AList.insert_entries] at he
  rcases List.mem_cons.mp he with rfl | hm
  · rfl
  · exact h e ((List.kerase_sublist _ _).subset hm)

theorem prepareAll_count (rs : List (SetupEndpoints × SetupEndpointsResponse)) :
    ∀ f : ffmpeg, (rs.map (fun r => r.1.SessionId)).Nodup →
      (∀ r ∈ rs, (⟨r.1.SessionId⟩ : StreamID) ∉ f.streams) →
      (prepareAll f rs).ActiveStreams = f.ActiveStreams + rs.length := by
  induction rs with
  | nil => intro f _ _; rfl
  | cons r rest ih =>
    intro f hnd hfresh
    rw [List.map_cons, List.nodup_cons] at hnd
    have hr : (⟨r.1.SessionId⟩ : StreamID) ∉ f.streams := hfresh r (List.mem_cons_self r rest)
    have hrest : ∀ x ∈ rest,
        (⟨x.1.SessionId⟩ : StreamID) ∉ (f.PrepareNewStream r.1 r.2).state.streams := by
      intro x hx hmem
      simp only [ffmpeg.PrepareNewStream, AList.mem_insert] at hmem
      rcases hmem with e | e
      · apply hnd.1
        have e' : x.1.SessionId = r.1.SessionId := congrArg StreamID.bytes e
        rw [← e']
        exact List.mem_map.mpr ⟨x, hx, rfl⟩
      · exact hfresh x (List.mem_cons_of_mem r hx) e
    rw [prepareAll, ih _ hnd.2 hrest, ffmpeg.PrepareNewStream_count f r.1 r.2 hr,
      List.length_cons]
    omega

theorem prepareAll_inactive (rs : List (SetupEndpoints × SetupEndpointsResponse)) :
    ∀ f : ffmpeg, (∀ e ∈ f.streams.entries, e.2.isActive = false) →
      ∀ e ∈ (prepareAll f rs).streams.entries, e.2.isActive = false := by
  induction rs with
  | nil => intro f h; exact h
  | cons r rest ih =>
    intro f h
    exact ih _ (ffmpeg.PrepareNewStream_inactive f r.1 r.2 h)

/-- C9: `ActiveStreams` is the number of entries of the registry; on a fresh registry, after
`PrepareNewStream` for `n` requests with distinct session ids and no `Start`, it is `n` although
no session of the registry is active. -/
theorem activeStreams_counts_entries (cfg : Config)
    (rs : List (SetupEndpoints × SetupEndpointsResponse))
    (h : (rs.map (fun r => r.1.SessionId)).Nodup) :
    (∀ f : ffmpeg, f.ActiveStreams = f.streams.entries.length) ∧
    (prepareAll (New cfg) rs).ActiveStreams = rs.length ∧
    (∀ e ∈ (prepareAll (New cfg) rs).streams.entries, e.2.isActive = false) ∧
    ((prepareAll (New cfg) rs).streams.entries.filter (fun e => e.2.isActive)).length = 0 := by
  have hin := prepareAll_inactive rs (New cfg) (by simp [New])
  refine ⟨fun _ => rfl, ?_, hin, ?_⟩
  · rw [prepareAll_count rs (New cfg) h (by simp [New])]
    simp [ffmpeg.ActiveStreams, New]
  · rw [List.length_eq_zero, List.filter_eq_nil_iff]
    intro e he
    rw [hin e he]
    decide

/-- C9 with the two sessions `S1` and `S2` prepared and none started. -/
theorem activeStreams_counts_entries_witness :
    (prepareAll (New demoConfig) [(demoReq, demoResp), (demoReq2, demoResp)]).ActiveStreams =
      2 ∧
    ((prepareAll (New demoConfig) [(demoReq, demoResp), (demoReq2, demoResp)]).streams.entries.filter
      (fun e => e.2.isActive)).length = 0 :=
  ⟨(activeStreams_counts_entries demoConfig [(demoReq, demoResp), (demoReq2, demoResp)]
      (by decide)).2.1,
   (activeStreams_counts_entries demoConfig [(demoReq, demoResp), (demoReq2, demoResp)]
      (by decide)).2.2.2⟩

/-- C10 fails on the code: for a session of the registry with no process handle, `Suspend` and
`Resume` end in a nil pointer dereference, since `stream.suspend` and `stream.resume` use
`s.cmd` without the check that `stream.stop` and `stream.reconfigure` make. -/
theorem suspend_resume_without_handle_panic (f : ffmpeg) (id : StreamID) (s : stream)
    (h : f.streams.lookup id = some s) (hc : s.cmd = none) :
    f.Suspend id = Except.error Fault.nilPointerDereference ∧
    f.Resume id = Except.error Fault.nilPointerDereference := by
  have hg := ffmpeg.getStream_of_lookup f id s h
  simp [ffmpeg.Suspend, ffmpeg.Resume, hg, stream.suspend, stream.resume, hc]

/-- C10 on a session that was prepared and never started. -/
theorem suspend_resume_without_handle_panic_witness :
    demoRegistry.Suspend ⟨[83, 49]⟩ = Except.error Fault.nilPointerDereference ∧
    demoRegistry.Resume ⟨[83, 49]⟩ = Except.error Fault.nilPointerDereference :=
  suspend_resume_without_handle_panic demoRegistry ⟨[83, 49]⟩
    ⟨"v4l2", "/dev/video0", "", "h264_v4l2m2m", 300, demoReq, demoResp, none⟩ (by decide) rfl


/-- C11 as stated fails: on a registry holding only `S1`, `Reconfigure` of `S2` returns the
`StreamNotFoundError` for `S2`. -/
theorem reconfigure_can_fail_counterexample :
    (demoRegistry.Reconfigure idS2 demoVideo demoAudio).ret =
      some (Error.StreamNotFoundError idS2) := by
  decide

/-- C11, amended: for an id that is a key of the registry `Reconfigure` returns no error, and
for every id, registered or not, it performs no effect and returns the registry as it was:
sessions with their process handles, loopback state and snapshot cache. -/
theorem reconfigure_no_effect (f : ffmpeg) (id : StreamID) (video : VideoParameters)
    (audio : AudioParameters) :
    (id ∈ f.streams → (f.Reconfigure id video audio).ret = none) ∧
    (f.Reconfigure id video audio).effects = [] ∧
    (f.Reconfigure id video audio).state = f := by
  refine ⟨?_, ?_, ?_⟩
  · intro h
    obtain ⟨s, _, hg⟩ := ffmpeg.getStream_of_mem f id h
    simp [ffmpeg.Reconfigure, hg, stream.reconfigure]
  · unfold ffmpeg.Reconfigure
    split <;> rfl
  · unfold ffmpeg.Reconfigure
    split <;> rfl

/-- C11 amended, on a registry holding `S1`: `Reconfigure` of `S1` returns no error. -/
theorem reconfigure_no_effect_witness :
    (demoRegistry.Reconfigure idS1 demoVideo demoAudio).ret = none :=
  (reconfigure_no_effect demoRegistry idS1 demoVideo demoAudio).1 (by decide)

theorem ffmpeg.stopLoopbackIfIdle_snapshot (f : ffmpeg) :
    f.stopLoopbackIfIdle.1.snapshot = f.snapshot := by
  unfold ffmpeg.stopLoopbackIfIdle
  split
  · split <;> rfl
  · rfl

theorem ffmpeg.startLoopback_streams (f : ffmpeg) (loopOk : Bool) :
    (f.startLoopback loopOk).1.streams = f.streams := by
  unfold ffmpeg.startLoopback
  split <;> rfl

theorem ffmpeg.startLoopback_snapshot (f : ffmpeg) (loopOk : Bool) :
    (f.startLoopback loopOk).1.snapshot = f.snapshot := by
  unfold ffmpeg.startLoopback
  split <;> rfl

theorem ffmpeg.startLoopback_cfg (f : ffmpeg) (loopOk : Bool) :
    (f.startLoopback loopOk).1.cfg = f.cfg := by
  unfold ffmpeg.startLoopback
  split <;> rfl

theorem ffmpeg.Snapshot_snapshot (f : ffmpeg) (width height : Nat) (loopOk : Bool)
    (shot : Option Hkcam.Snapshot) (err : Option Error) :
    (f.Snapshot width height loopOk shot err).state.snapshot = shot := by
  unfold ffmpeg.Snapshot
  exact ffmpeg.stopLoopbackIfIdle_snapshot _

theorem ffmpeg.Suspend_state (f : ffmpeg) (id : StreamID) (o : Outcome Unit)
    (h : f.Suspend id = Except.ok o) : o.state = f := by
  unfold ffmpeg.Suspend at h
  cases hg : f.getStream id with
  | error e =>
    rw [hg] at h
    cases h
    rfl
  | ok s =>
    rw [hg] at h
    dsimp only at h
    cases hs : s.suspend with
    | error p => rw [hs] at h; cases h
    | ok e => rw [hs] at h; cases h; rfl

theorem ffmpeg.Resume_state (f : ffmpeg) (id : StreamID) (o : Outcome Unit)
    (h : f.Resume id = Except.ok o) : o.state = f := by
  unfold ffmpeg.Resume at h
  cases hg : f.getStream id with
  | error e =>
    rw [hg] at h
    cases h
    rfl
  | ok s =>
    rw [hg] at h
    dsimp only at h
    cases hs : s.resume with
    | error p => rw [hs] at h; cases h
    | ok e => rw [hs] at h; cases h; rfl

theorem Op.run_suspend (K : RtpConstants) (f f1 : ffmpeg) (id : StreamID) (es : List Effect)
    (h : (Op.suspend id).run K f = Except.ok (f1, es)) : f1 = f := by
  simp only [Op.run] at h
  cases ho : f.Suspend id with
  | error p => rw [ho] at h; cases h
  | ok o =>
    rw [ho] at h
    cases h
    exact ffmpeg.Suspend_state f id o ho

theorem Op.run_resume (K : RtpConstants) (f f1 : ffmpeg) (id : StreamID) (es : List Effect)
    (h : (Op.resume id).run K f = Except.ok (f1, es)) : f1 = f := by
  simp only [Op.run] at h
  cases ho : f.Resume id with
  | error p => rw [ho] at h; cases h
  | ok o =>
    rw [ho] at h
    cases h
    exact ffmpeg.Resume_state f id o ho

theorem Op.run_snapshot_of_notSnapshot (K : RtpConstants) (f f1 : ffmpeg) (op : Op)
    (es : List Effect) (hn : op.notSnapshot = true) (h : op.run K f = Except.ok (f1, es)) :
    f1.snapshot = f.snapshot := by
  cases op with
  | prepare req resp =>
    simp only [Op.run, Except.ok.injEq, Prod.mk.injEq] at h
    rw [← h.1]
    rfl
  | start id video audio loopOk spawn =>
    simp only [Op.run, Except.ok.injEq, Prod.mk.injEq] at h
    rw [← h.1]
    unfold ffmpeg.Start
    split
    · rfl
    · exact ffmpeg.startLoopback_snapshot f loopOk
  | stop id =>
    simp only [Op.run, Except.ok.injEq, Prod.mk.injEq] at h
    rw [← h.1]
    unfold ffmpeg.Stop
    split
    · rfl
    · exact ffmpeg.stopLoopbackIfIdle_snapshot _
  | suspend id => rw [Op.run_suspend K f f1 id es h]
  | resume id => rw [Op.run_resume K f f1 id es h]
  | reconfigure id video audio =>
    simp only [Op.run, Except.ok.injEq, Prod.mk.injEq] at h
    rw [← h.1]
    unfold ffmpeg.Reconfigure
    split <;> rfl
  | snapshot w h' l sh er => simp [Op.notSnapshot] at hn

theorem runOps_cons_ok (K : RtpConstants) (f f2 : ffmpeg) (op : Op) (ops : List Op)
    (es : List Effect) (h : runOps K f (op :: ops) = Except.ok (f2, es)) :
    ∃ f1 e1 e2, op.run K f = Except.ok (f1, e1) ∧ runOps K f1 ops = Except.ok (f2, e2) ∧
      es = e1 ++ e2 := by
  unfold runOps at h
  cases h1 : op.run K f with
  | error p => rw [h1] at h; cases h
  | ok r1 =>
    obtain ⟨g, e1⟩ := r1
    rw [h1] at h
    dsimp only at h
    cases h2 : runOps K g ops with
    | error p => rw [h2] at h; cases h
    | ok r2 =>
      obtain ⟨g2, e2⟩ := r2
      rw [h2] at h
      simp only [Except.ok.injEq, Prod.mk.injEq] at h
      exact ⟨g, e1, e2, rfl, h.1 ▸ h2, h.2.symm⟩

theorem runOps_snapshot_of_notSnapshot (K : RtpConstants) (ops : List Op) :
    ∀ (f f1 : ffmpeg) (es : List Effect), (∀ op ∈ ops, op.notSnapshot = true) →
      runOps K f ops = Except.ok (f1, es) → f1.snapshot = f.snapshot := by
  induction ops with
  | nil =>
    intro f f1 es _ h
    simp only [runOps, Except.ok.injEq, Prod.mk.injEq] at h
    rw [← h.1]
  | cons op rest ih =>
    intro f f1 es hn h
    obtain ⟨g, e1, e2, h1, h2, _⟩ := runOps_cons_ok K f f1 op rest es h
    rw [ih g f1 e2 (fun o ho => hn o (List.mem_cons_of_mem op ho)) h2]
    exact Op.run_snapshot_of_notSnapshot K f g op e1 (hn op (List.mem_cons_self op rest)) h1

/-- C12: `Snapshot` returns the pair that the capture gave and caches the shot, so that
`RecentSnapshot` called right after, with any dimensions, returns that same shot whatever the
error is; `RecentSnapshot` only reads the cache (it has no effect and no next state); and it
returns nil on a fresh registry and after every sequence of calls without a `Snapshot`. -/
theorem recentSnapshot_after_snapshot (K : RtpConstants) (f : ffmpeg) (w h w1 h1 : Nat)
    (loopOk : Bool) (shot : Option Hkcam.Snapshot) (err : Option Error) :
    (f.Snapshot w h loopOk shot err).ret = (shot, err) ∧
    (f.Snapshot w h loopOk shot err).state.RecentSnapshot w1 h1 =
      (f.Snapshot w h loopOk shot err).ret.1 ∧
    (∀ g : ffmpeg, g.RecentSnapshot w1 h1 = g.snapshot) ∧
    (∀ cfg : Config, (New cfg).RecentSnapshot w1 h1 = none) ∧
    (∀ (cfg : Config) (ops : List Op) (g : ffmpeg) (es : List Effect),
      (∀ op ∈ ops, op.notSnapshot = true) → runOps K (New cfg) ops = Except.ok (g, es) →
      g.RecentSnapshot w1 h1 = none) := by
  refine ⟨rfl, ?_, fun _ => rfl, fun _ => rfl, ?_⟩
  · exact ffmpeg.Snapshot_snapshot f w h loopOk shot err
  · intro cfg ops g es hn hr
    exact runOps_snapshot_of_notSnapshot K ops (New cfg) g es hn hr

/-- C12 on `Snapshot(320, 240)` then `RecentSnapshot(0, 0)`, and on `RecentSnapshot` after a
session was prepared, started and stopped without any `Snapshot`. -/
theorem recentSnapshot_after_snapshot_witness :
    ((New loopConfig).Snapshot 320 240 true (some ⟨[1, 2, 3], 17⟩) none).state.RecentSnapshot
      0 0 = some ⟨[1, 2, 3], 17⟩ ∧
    ∃ g es, runOps hapConstants (New loopConfig) startStopOps = Except.ok (g, es) ∧
      g.RecentSnapshot 0 0 = none :=
  ⟨(recentSnapshot_after_snapshot hapConstants (New loopConfig) 320 240 0 0 true
      (some ⟨[1, 2, 3], 17⟩) none).2.1,
   _, _, rfl,
   (recentSnapshot_after_snapshot hapConstants (New loopConfig) 320 240 0 0 true
      (some ⟨[1, 2, 3], 17⟩) none).2.2.2.2 loopConfig startStopOps _ _ (by decide) rfl⟩


theorem kreplace_cons_eq (id : StreamID) (s v : stream)
    (t : List (Sigma (fun _ : StreamID => stream))) :
    List.kreplace id s (⟨id, v⟩ :: t) = ⟨id, s⟩ :: t := by
  simp [List.kreplace, List.lookmap_cons_some]

theorem kreplace_cons_ne (id k : StreamID) (s v : stream)
    (t : List (Sigma (fun _ : StreamID => stream))) (h : id ≠ k) :
    List.kreplace id s (⟨k, v⟩ :: t) = ⟨k, v⟩ :: List.kreplace id s t := by
  simp [List.kreplace, List.lookmap_cons_none, h]

theorem dlookup_kreplace_self (id : StreamID) (s : stream) :
    ∀ l : List (Sigma (fun _ : StreamID => stream)), id ∈ l.keys →
      List.dlookup id (List.kreplace id s l) = some s := by
  intro l
  induction l with
  | nil => intro h; simp at h
  | cons e t ih =>
    intro h
    obtain ⟨k, v⟩ := e
    by_cases hk : id = k
    · subst hk
      rw [kreplace_cons_eq, List.dlookup_cons_eq]
    · rw [kreplace_cons_ne id k s v t hk, List.dlookup_cons_ne _ _ hk]
      apply ih
      simp only [List.keys_cons, List.mem_cons] at h
      rcases h with h | h
      · exact absurd h hk
      · exact h

theorem dlookup_kreplace_ne (id id1 : StreamID) (s : stream) (hne : id1 ≠ id) :
    ∀ l : List (Sigma (fun _ : StreamID => stream)),
      List.dlookup id1 (List.kreplace id s l) = List.dlookup id1 l := by
  intro l
  induction l with
  | nil => rfl
  | cons e t ih =>
    obtain ⟨k, v⟩ := e
    by_cases hk : id = k
    · subst hk
      rw [kreplace_cons_eq, List.dlookup_cons_ne _ _ hne, List.dlookup_cons_ne _ _ hne]
    · rw [kreplace_cons_ne id k s v t hk]
      by_cases h1 : id1 = k
      · subst h1
        rw [List.dlookup_cons_eq, List.dlookup_cons_eq]
      · rw [List.dlookup_cons_ne _ _ h1, List.dlookup_cons_ne _ _ h1, ih]

theorem mem_kreplace (id : StreamID) (s : stream) :
    ∀ (l : List (Sigma (fun _ : StreamID => stream))) (e : Sigma (fun _ : StreamID => stream)),
      e ∈ List.kreplace id s l → e ∈ l ∨ e = ⟨id, s⟩ := by
  intro l
  induction l with
  | nil => intro e h; simp [List.kreplace] at h
  | cons x t ih =>
    intro e h
    obtain ⟨k, v⟩ := x
    by_cases hk : id = k
    · subst hk
      rw [kreplace_cons_eq] at h
      rcases List.mem_cons.mp h with h | h
      · exact Or.inr h
      · exact Or.inl (List.mem_cons_of_mem _ h)
    · rw [kreplace_cons_ne id k s v t hk] at h
      rcases List.mem_cons.mp h with h | h
      · exact Or.inl (h ▸ List.mem_cons_self _ _)
      · rcases ih e h with h | h
        · exact Or.inl (List.mem_cons_of_mem _ h)
        · exact Or.inr h

theorem lookup_replace_self (m : AList (fun _ : StreamID => stream)) (id : StreamID)
    (s : stream) (h : id ∈ m) : (m.replace id s).lookup id = some s :=
  dlookup_kreplace_self id s m.entries (AList.mem_keys.mp h)

theorem lookup_replace_ne (m : AList (fun _ : StreamID => stream)) (id id1 : StreamID)
    (s : stream) (h : id1 ≠ id) : (m.replace id s).lookup id1 = m.lookup id1 :=
  dlookup_kreplace_ne id id1 s h m.entries

theorem ffmpeg.Start_of_lookup (K : RtpConstants) (f : ffmpeg) (id : StreamID) (s : stream)
    (video : VideoParameters) (audio : AudioParameters) (loopOk : Bool)
    (spawn : Except Error Nat) (h : f.streams.lookup id = some s) :
    f.Start K id video audio loopOk spawn =
      { state := { (f.startLoopback loopOk).1 with
          streams := f.streams.replace id (s.start K video audio spawn).1 }
        ret := (s.start K video audio spawn).2.1
        effects := (f.startLoopback loopOk).2 ++ (s.start K video audio spawn).2.2 } := by
  unfold ffmpeg.Start
  rw [ffmpeg.getStream_of_lookup f id s h]
  dsimp only
  rw [ffmpeg.startLoopback_streams]

/-- C14: for a registered session with no process handle, when the spawn fails `Start` returns
the spawn error, the session still has no handle and the keys of the registry are as before;
when the spawn succeeds `Start` returns no error and the session holds the new process, created
with the built argument list. -/
theorem start_spawn_outcome (K : RtpConstants) (f : ffmpeg) (id : StreamID) (s : stream)
    (video : VideoParameters) (audio : AudioParameters) (loopOk : Bool)
    (h : f.streams.lookup id = some s) (hc : s.cmd = none) :
    (∀ err : Error,
      (f.Start K id video audio loopOk (Except.error err)).ret = some err ∧
      (f.Start K id video audio loopOk (Except.error err)).state.streams.lookup id = some s ∧
      s.isActive = false ∧
      (f.Start K id video audio loopOk (Except.error err)).state.streams.keys =
        f.streams.keys ∧
      (∀ pid args, Effect.spawn args pid ∉
        (f.Start K id video audio loopOk (Except.error err)).effects)) ∧
    (∀ pid : Nat,
      (f.Start K id video audio loopOk (Except.ok pid)).ret = none ∧
      (f.Start K id video audio loopOk (Except.ok pid)).state.streams.lookup id =
        some { s with cmd := some ⟨s.startArgs K video, pid⟩ } ∧
      (f.Start K id video audio loopOk (Except.ok pid)).state.streams.keys = f.streams.keys ∧
      Effect.spawn (s.startArgs K video) pid ∈
        (f.Start K id video audio loopOk (Except.ok pid)).effects) := by
  have hm : id ∈ f.streams := AList.lookup_isSome.mp (by rw [h]; rfl)
  constructor
  · intro err
    refine ⟨?_, ?_, ?_, ffmpeg.Start_keys K f id video audio loopOk _, ?_⟩
    · rw [ffmpeg.Start_of_lookup K f id s video audio loopOk _ h]
      rfl
    · rw [ffmpeg.Start_of_lookup K f id s video audio loopOk _ h]
      exact lookup_replace_self f.streams id _ hm
    · simp [stream.isActive, hc]
    · intro pid args
      rw [ffmpeg.Start_of_lookup K f id s video audio loopOk _ h]
      unfold ffmpeg.startLoopback
      split <;> simp [stream.start]
  · intro pid
    refine ⟨?_, ?_, ffmpeg.Start_keys K f id video audio loopOk _, ?_⟩
    · rw [ffmpeg.Start_of_lookup K f id s video audio loopOk _ h]
      rfl
    · rw [ffmpeg.Start_of_lookup K f id s video audio loopOk _ h]
      exact lookup_replace_self f.streams id _ hm
    · rw [ffmpeg.Start_of_lookup K f id s video audio loopOk _ h]
      simp [stream.start]

/-- C14 on the prepared session `S1`: a failed spawn is returned and leaves it inactive. -/
theorem start_spawn_outcome_witness :
    (demoRegistry.Start hapConstants idS1 demoVideo demoAudio true
      (Except.error (Error.exec "exec: ffmpeg not found"))).ret =
        some (Error.exec "exec: ffmpeg not found") ∧
    (demoRegistry.Start hapConstants idS1 demoVideo demoAudio true
      (Except.error (Error.exec "exec: ffmpeg not found"))).state.streams.lookup idS1 =
        some demoStream :=
  ⟨((start_spawn_outcome hapConstants demoRegistry idS1 demoStream demoVideo demoAudio true
      (by decide) rfl).1 (Error.exec "exec: ffmpeg not found")).1,
   ((start_spawn_outcome hapConstants demoRegistry idS1 demoStream demoVideo demoAudio true
      (by decide) rfl).1 (Error.exec "exec: ffmpeg not found")).2.1⟩


theorem splitAll_cons_of_no_space (a : String) (l : List String) (h : ' ' ∉ a.data) :
    splitAll (a :: l) = a :: splitAll l := by
  rw [splitAll, Split_of_not_mem a h]
  rfl

/-- C15 as stated fails: `Start` of the registered session `S1` with a codec type other than
H264 returns no error, spawns the process and leaves the session active. -/
theorem unsupported_codec_started_counterexample :
    otherCodecVideo.CodecType ≠ hapConstants.VideoCodecType_H264 ∧
    idS1 ∈ demoRegistry.streams ∧
    (demoRegistry.Start hapConstants idS1 otherCodecVideo demoAudio true (Except.ok 7)).ret =
      none ∧
    Effect.spawn (demoStream.startArgs hapConstants otherCodecVideo) 7 ∈
      (demoRegistry.Start hapConstants idS1 otherCodecVideo demoAudio true
        (Except.ok 7)).effects ∧
    (demoRegistry.Start hapConstants idS1 otherCodecVideo demoAudio true
      (Except.ok 7)).state.anyActive = true := by
  decide

/-- C15, amended: for a registered session and a codec type other than H264 the built list
holds `-codec:v` immediately followed by the sentinel `?` and no decoder option, and `Start` does
not fail for that: it spawns with that list, returns no error and attaches the handle when the
spawn succeeds, and returns the spawn error, the session unchanged, when the spawn fails. -/
theorem unsupported_codec_sentinel (K : RtpConstants) (f : ffmpeg) (id : StreamID) (s : stream)
    (video : VideoParameters) (audio : AudioParameters) (loopOk : Bool)
    (h : f.streams.lookup id = some s) (hcodec : video.CodecType ≠ K.VideoCodecType_H264) :
    s.videoEncoder K video = "?" ∧
    s.videoDecoderOption K video = "" ∧
    Adjacent "-codec:v" "?" (s.startArgs K video) ∧
    (∀ pid : Nat,
      (f.Start K id video audio loopOk (Except.ok pid)).ret = none ∧
      Effect.spawn (s.startArgs K video) pid ∈
        (f.Start K id video audio loopOk (Except.ok pid)).effects ∧
      (f.Start K id video audio loopOk (Except.ok pid)).state.streams.lookup id =
        some { s with cmd := some ⟨s.startArgs K video, pid⟩ }) ∧
    (∀ err : Error,
      (f.Start K id video audio loopOk (Except.error err)).ret = some err ∧
      (f.Start K id video audio loopOk (Except.error err)).state.streams.lookup id =
        some s) := by
  have hm : id ∈ f.streams := AList.lookup_isSome.mp (by rw [h]; rfl)
  have he : s.videoEncoder K video = "?" := by
    unfold stream.videoEncoder
    rw [if_neg hcodec]
  have hd : s.decoderWords K video = [] := by
    unfold stream.decoderWords
    rw [if_neg (fun c => hcodec c.1)]
  refine ⟨he, ?_, ?_, ?_, ?_⟩
  · unfold stream.videoDecoderOption
    rw [if_neg hcodec]
  · have hw : s.words K video =
        ["-re", "-i", s.inputFilename, "-allow_sw", "1",
          "-framerate", toString (s.framerate video.Attributes), "-an"] ++
        "-codec:v" :: "?" ::
          ["-pix_fmt", "yuv420p", "-vsync", "vfr", "-r", "10",
            "-video_size", toString video.Attributes.Width ++ ":-2",
            "-framerate", toString video.Attributes.Framerate,
            "-level:v", videoLevel K video.CodecParams,
            "-f", "rawvideo", "-b:v", toString (s.videoBitrate video) ++ "k",
            "-payload_type", toString video.RTP.PayloadType,
            "-ssrc", toString s.resp.SsrcVideo,
            "-f", "rtp", "-srtp_out_suite", "AES_CM_128_HMAC_SHA1_80",
            "-srtp_out_params", s.req.Video.SrtpKey, s.url K] := by
      simp [stream.words, he, hd]
    rw [stream.startArgs_eq, hw]
    exact adjacent_splitAll _ _ _ _ (by decide) (by decide)
  · intro pid
    rw [ffmpeg.Start_of_lookup K f id s video audio loopOk _ h]
    exact ⟨rfl, by simp [stream.start], lookup_replace_self f.streams id _ hm⟩
  · intro err
    rw [ffmpeg.Start_of_lookup K f id s video audio loopOk _ h]
    exact ⟨rfl, lookup_replace_self f.streams id _ hm⟩

/-- C15 amended, on the session `S1` and a codec type other than H264. -/
theorem unsupported_codec_sentinel_witness :
    Adjacent "-codec:v" "?" (demoStream.startArgs hapConstants otherCodecVideo) ∧
    (demoRegistry.Start hapConstants idS1 otherCodecVideo demoAudio true (Except.ok 7)).ret =
      none :=
  ⟨(unsupported_codec_sentinel hapConstants demoRegistry idS1 demoStream otherCodecVideo
      demoAudio true (by decide) (by decide)).2.2.1,
   ((unsupported_codec_sentinel hapConstants demoRegistry idS1 demoStream otherCodecVideo
      demoAudio true (by decide) (by decide)).2.2.2.1 7).1⟩

/-- C16 as stated fails: on `avfoundation` with a negotiated framerate of 15, `stream.framerate`
is 30 and the second `-framerate` of the built list is followed by `15`. -/
theorem second_framerate_not_forced_counterexample :
    macStream.inputDevice = "avfoundation" ∧
    macStream.framerate slowVideo.Attributes = 30 ∧
    (macStream.startArgs hapConstants slowVideo)[18]? = some "-framerate" ∧
    (macStream.startArgs hapConstants slowVideo)[19]? = some "15" := by
  decide

/-- C16, amended: `stream.framerate` is 30 when the input device is `avfoundation` and the
negotiated framerate otherwise; the built list holds a first `-framerate` immediately followed
by the rendering of that value and, further on, a second `-framerate` immediately followed by
the rendering of the negotiated framerate, which is not forced. -/
theorem framerate_flags (K : RtpConstants) (s : stream) (video : VideoParameters) :
    (s.inputDevice = "avfoundation" → s.framerate video.Attributes = 30) ∧
    (s.inputDevice ≠ "avfoundation" →
      s.framerate video.Attributes = video.Attributes.Framerate) ∧
    ∃ pre mid post, s.startArgs K video =
      pre ++ "-framerate" :: toString (s.framerate video.Attributes) ::
        (mid ++ "-framerate" :: toString video.Attributes.Framerate :: post) := by
  refine ⟨?_, ?_, ?_⟩
  · intro h
    unfold stream.framerate
    rw [if_pos h]
  · intro h
    unfold stream.framerate
    rw [if_neg h]
  · have hw : s.words K video =
        ["-re", "-i", s.inputFilename, "-allow_sw", "1"] ++
        "-framerate" :: toString (s.framerate video.Attributes) ::
          ((s.decoderWords K video ++
            ["-an", "-codec:v", s.videoEncoder K video,
              "-pix_fmt", "yuv420p", "-vsync", "vfr", "-r", "10",
              "-video_size", toString video.Attributes.Width ++ ":-2"]) ++
          "-framerate" :: toString video.Attributes.Framerate ::
            ["-level:v", videoLevel K video.CodecParams,
              "-f", "rawvideo", "-b:v", toString (s.videoBitrate video) ++ "k",
              "-payload_type", toString video.RTP.PayloadType,
              "-ssrc", toString s.resp.SsrcVideo,
              "-f", "rtp", "-srtp_out_suite", "AES_CM_128_HMAC_SHA1_80",
              "-srtp_out_params", s.req.Video.SrtpKey, s.url K]) := by
      simp [stream.words]
    refine ⟨splitAll ["-re", "-i", s.inputFilename, "-allow_sw", "1"],
      splitAll (s.decoderWords K video ++
            ["-an", "-codec:v", s.videoEncoder K video,
              "-pix_fmt", "yuv420p", "-vsync", "vfr", "-r", "10",
              "-video_size", toString video.Attributes.Width ++ ":-2"]),
      splitAll ["-level:v", videoLevel K video.CodecParams,
              "-f", "rawvideo", "-b:v", toString (s.videoBitrate video) ++ "k",
              "-payload_type", toString video.RTP.PayloadType,
              "-ssrc", toString s.resp.SsrcVideo,
              "-f", "rtp", "-srtp_out_suite", "AES_CM_128_HMAC_SHA1_80",
              "-srtp_out_params", s.req.Video.SrtpKey, s.url K], ?_⟩
    rw [stream.startArgs_eq, hw, splitAll_append,
      splitAll_cons_of_no_space "-framerate" _ (by decide),
      splitAll_cons_of_no_space _ _ (natToString_no_space _), splitAll_append,
      splitAll_cons_of_no_space "-framerate" _ (by decide),
      splitAll_cons_of_no_space _ _ (natToString_no_space _)]

/-- C16 amended, on `avfoundation` with a negotiated framerate of 15. -/
theorem framerate_flags_witness :
    macStream.framerate slowVideo.Attributes = 30 :=
  (framerate_flags hapConstants macStream slowVideo).1 rfl

/-- C17: `PrepareNewStream` returns the id made of the session id of the request and performs
no effect; afterwards the registry maps that id to a session with no process handle that holds
the request, the response, the configured device, decoder, encoder and minimum bitrate, and as
input filename the loopback filename when one is configured and the input filename otherwise;
the entry under every other id, the loopback and the snapshot cache are unchanged. -/
theorem prepareNewStream_registers (f : ffmpeg) (req : SetupEndpoints)
    (resp : SetupEndpointsResponse) :
    (f.PrepareNewStream req resp).ret = ⟨req.SessionId⟩ ∧
    (f.PrepareNewStream req resp).effects = [] ∧
    (f.PrepareNewStream req resp).state.streams.lookup ⟨req.SessionId⟩ =
      some { inputDevice := f.cfg.InputDevice
             inputFilename :=
               if f.cfg.LoopbackFilename ≠ "" then f.cfg.LoopbackFilename
               else f.cfg.InputFilename
             h264Decoder := f.cfg.H264Decoder
             h264Encoder := f.cfg.H264Encoder
             minVideoBitrate := f.cfg.MinVideoBitrate
             req := req
             resp := resp
             cmd := none } ∧
    (f.cfg.LoopbackFilename ≠ "" → ∃ s,
      (f.PrepareNewStream req resp).state.streams.lookup ⟨req.SessionId⟩ = some s ∧
        s.inputFilename = f.cfg.LoopbackFilename ∧ s.isActive = false) ∧
    (f.cfg.LoopbackFilename = "" → ∃ s,
      (f.PrepareNewStream req resp).state.streams.lookup ⟨req.SessionId⟩ = some s ∧
        s.inputFilename = f.cfg.InputFilename ∧ s.isActive = false) ∧
    (∀ id : StreamID, id ≠ ⟨req.SessionId⟩ →
      (f.PrepareNewStream req resp).state.streams.lookup id = f.streams.lookup id) ∧
    (f.PrepareNewStream req resp).state.loop = f.loop ∧
    (f.PrepareNewStream req resp).state.snapshot = f.snapshot ∧
    (f.PrepareNewStream req resp).state.cfg = f.cfg := by
  have hl : (f.PrepareNewStream req resp).state.streams.lookup ⟨req.SessionId⟩ =
      some { inputDevice := f.cfg.InputDevice
             inputFilename :=
               if f.cfg.LoopbackFilename ≠ "" then f.cfg.LoopbackFilename
               else f.cfg.InputFilename
             h264Decoder := f.cfg.H264Decoder
             h264Encoder := f.cfg.H264Encoder
             minVideoBitrate := f.cfg.MinVideoBitrate
             req := req
             resp := resp
             cmd := none } := by
    unfold ffmpeg.PrepareNewStream
    dsimp only
    rw [AList.lookup_insert]
    rfl
  refine ⟨rfl, rfl, hl, ?_, ?_, ?_, rfl, rfl, rfl⟩
  · intro h
    exact ⟨_, hl, by dsimp only; rw [if_pos h], rfl⟩
  · intro h
    exact ⟨_, hl, by dsimp only; rw [if_neg (not_not.mpr h)], rfl⟩
  · intro id hne
    unfold ffmpeg.PrepareNewStream
    dsimp only
    exact AList.lookup_insert_ne hne

/-- C17 on a registry with the loopback `/dev/video99`: the prepared session reads from it. -/
theorem prepareNewStream_registers_witness :
    ∃ s, ((New loopConfig).PrepareNewStream demoReq demoResp).state.streams.lookup idS1 =
      some s ∧ s.inputFilename = "/dev/video99" ∧ s.isActive = false :=
  (prepareNewStream_registers (New loopConfig) demoReq demoResp).2.2.2.1 (by decide)


theorem videoMTU_no_space (K : RtpConstants) (setup : SetupEndpoints) :
    ' ' ∉ (videoMTU K setup).data := by
  unfold videoMTU
  split
  · decide
  · split <;> decide

theorem no_space_append (a b : String) (ha : ' ' ∉ a.data) (hb : ' ' ∉ b.data) :
    ' ' ∉ (a ++ b).data := by
  rw [String.data_append]
  intro hm
  rcases List.mem_append.mp hm with e | e
  · exact ha e
  · exact hb e

theorem stream.url_no_space (K : RtpConstants) (s : stream)
    (hip : ' ' ∉ s.req.ControllerAddr.IPAddr.data) : ' ' ∉ (s.url K).data := by
  unfold stream.url
  refine no_space_append _ _ (no_space_append _ _ (no_space_append _ _ (no_space_append _ _
    (no_space_append _ _ (no_space_append _ _ (no_space_append _ _ (no_space_append _ _
      ?_ hip) ?_) (natToString_no_space _)) ?_) (natToString_no_space _)) ?_)
    (videoMTU_no_space K s.req)) ?_ <;> decide

/-- C19: when the controller address holds no space, the last element of the list built by
`stream.start` is the URL `srtp://addr:port?rtcpport=port&pkt_size=mtu&timeout=60` with the
controller address, the video RTP port as data and as rtcp port, and `videoMTU` of the request;
the list holds `-srtp_out_suite` immediately followed by `AES_CM_128_HMAC_SHA1_80`,
`-payload_type` by the negotiated payload type and `-ssrc` by the video SSRC of the response. -/
theorem destination_and_transport (K : RtpConstants) (s : stream) (video : VideoParameters)
    (hip : ' ' ∉ s.req.ControllerAddr.IPAddr.data) :
    (s.startArgs K video).getLast? =
      some ("srtp://" ++ s.req.ControllerAddr.IPAddr ++ ":" ++
        toString s.req.ControllerAddr.VideoRtpPort ++ "?rtcpport=" ++
        toString s.req.ControllerAddr.VideoRtpPort ++ "&pkt_size=" ++
        videoMTU K s.req ++ "&timeout=60") ∧
    Adjacent "-srtp_out_suite" "AES_CM_128_HMAC_SHA1_80" (s.startArgs K video) ∧
    Adjacent "-payload_type" (toString video.RTP.PayloadType) (s.startArgs K video) ∧
    Adjacent "-ssrc" (toString s.resp.SsrcVideo) (s.startArgs K video) := by
  have hw : s.words K video =
      (["-re", "-i", s.inputFilename, "-allow_sw", "1",
          "-framerate", toString (s.framerate video.Attributes)] ++
        s.decoderWords K video ++
        ["-an", "-codec:v", s.videoEncoder K video,
          "-pix_fmt", "yuv420p", "-vsync", "vfr", "-r", "10",
          "-video_size", toString video.Attributes.Width ++ ":-2",
          "-framerate", toString video.Attributes.Framerate,
          "-level:v", videoLevel K video.CodecParams,
          "-f", "rawvideo", "-b:v", toString (s.videoBitrate video) ++ "k"]) ++
      "-payload_type" :: toString video.RTP.PayloadType ::
        (["-ssrc", toString s.resp.SsrcVideo, "-f", "rtp"] ++
          "-srtp_out_suite" :: "AES_CM_128_HMAC_SHA1_80" ::
            ["-srtp_out_params", s.req.Video.SrtpKey, s.url K]) := by
    simp [stream.words]
  refine ⟨?_, ?_, ?_, ?_⟩
  · have hw2 : s.words K video =
        (["-re", "-i", s.inputFilename, "-allow_sw", "1",
            "-framerate", toString (s.framerate video.Attributes)] ++
          s.decoderWords K video ++
          ["-an", "-codec:v", s.videoEncoder K video,
            "-pix_fmt", "yuv420p", "-vsync", "vfr", "-r", "10",
            "-video_size", toString video.Attributes.Width ++ ":-2",
            "-framerate", toString video.Attributes.Framerate,
            "-level:v", videoLevel K video.CodecParams,
            "-f", "rawvideo", "-b:v", toString (s.videoBitrate video) ++ "k",
            "-payload_type", toString video.RTP.PayloadType,
            "-ssrc", toString s.resp.SsrcVideo, "-f", "rtp",
            "-srtp_out_suite", "AES_CM_128_HMAC_SHA1_80",
            "-srtp_out_params", s.req.Video.SrtpKey]) ++ [s.url K] := by
      simp [stream.words]
    rw [stream.startArgs_eq, hw2, splitAll_append,
      splitAll_cons_of_no_space _ _ (stream.url_no_space K s hip)]
    simp [splitAll, stream.url]
  · have hw3 : s.words K video =
        (["-re", "-i", s.inputFilename, "-allow_sw", "1",
            "-framerate", toString (s.framerate video.Attributes)] ++
          s.decoderWords K video ++
          ["-an", "-codec:v", s.videoEncoder K video,
            "-pix_fmt", "yuv420p", "-vsync", "vfr", "-r", "10",
            "-video_size", toString video.Attributes.Width ++ ":-2",
            "-framerate", toString video.Attributes.Framerate,
            "-level:v", videoLevel K video.CodecParams,
            "-f", "rawvideo", "-b:v", toString (s.videoBitrate video) ++ "k",
            "-payload_type", toString video.RTP.PayloadType,
            "-ssrc", toString s.resp.SsrcVideo, "-f", "rtp"]) ++
        "-srtp_out_suite" :: "AES_CM_128_HMAC_SHA1_80" ::
          ["-srtp_out_params", s.req.Video.SrtpKey, s.url K] := by
      simp [stream.words]
    rw [stream.startArgs_eq, hw3]
    exact adjacent_splitAll _ _ _ _ (by decide) (by decide)
  · rw [stream.startArgs_eq, hw]
    exact adjacent_splitAll _ _ _ _ (by decide) (natToString_no_space _)
  · have hw4 : s.words K video =
        (["-re", "-i", s.inputFilename, "-allow_sw", "1",
            "-framerate", toString (s.framerate video.Attributes)] ++
          s.decoderWords K video ++
          ["-an", "-codec:v", s.videoEncoder K video,
            "-pix_fmt", "yuv420p", "-vsync", "vfr", "-r", "10",
            "-video_size", toString video.Attributes.Width ++ ":-2",
            "-framerate", toString video.Attributes.Framerate,
            "-level:v", videoLevel K video.CodecParams,
            "-f", "rawvideo", "-b:v", toString (s.videoBitrate video) ++ "k",
            "-payload_type", toString video.RTP.PayloadType]) ++
        "-ssrc" :: toString s.resp.SsrcVideo ::
          ["-f", "rtp", "-srtp_out_suite", "AES_CM_128_HMAC_SHA1_80",
            "-srtp_out_params", s.req.Video.SrtpKey, s.url K] := by
      simp [stream.words]
    rw [stream.startArgs_eq, hw4]
    exact adjacent_splitAll _ _ _ _ (by decide) (intToString_no_space _)

/-- C19 on the session `S1` towards the controller `192.168.1.20`, video port 50000. -/
theorem destination_and_transport_witness :
    (demoStream.startArgs hapConstants demoVideo).getLast? =
      some "srtp://192.168.1.20:50000?rtcpport=50000&pkt_size=1378&timeout=60" ∧
    Adjacent "-ssrc" "1234" (demoStream.startArgs hapConstants demoVideo) :=
  ⟨(destination_and_transport hapConstants demoStream demoVideo (by decide)).1,
   (destination_and_transport hapConstants demoStream demoVideo (by decide)).2.2.2⟩


theorem ffmpeg.anyActive_iff (f : ffmpeg) :
    f.anyActive = true ↔ ∃ e ∈ f.streams.entries, e.2.isActive = true := by
  simp [ffmpeg.anyActive, List.any_eq_true]

theorem ffmpeg.anyActive_congr (f g : ffmpeg) (h : g.streams = f.streams) :
    g.anyActive = f.anyActive := by
  unfold ffmpeg.anyActive
  rw [h]

theorem ffmpeg.stopLoopbackIfIdle_of_active (f : ffmpeg) (l : loopback) (hl : f.loop = some l)
    (ha : f.anyActive = true) : f.stopLoopbackIfIdle = (f, []) := by
  unfold ffmpeg.stopLoopbackIfIdle
  unfold ffmpeg.anyActive at ha
  rw [hl]
  dsimp only
  rw [if_pos ha]

theorem ffmpeg.stopLoopbackIfIdle_of_idle (f : ffmpeg) (l : loopback) (hl : f.loop = some l)
    (ha : f.anyActive = false) :
    f.stopLoopbackIfIdle = ({ f with loop := some l.Stop }, [Effect.loopbackStop]) := by
  unfold ffmpeg.stopLoopbackIfIdle
  unfold ffmpeg.anyActive at ha
  rw [hl]
  dsimp only
  rw [if_neg (by rw [ha]; decide)]

theorem ffmpeg.stopLoopbackIfIdle_of_none (f : ffmpeg) (hl : f.loop = none) :
    f.stopLoopbackIfIdle = (f, []) := by
  unfold ffmpeg.stopLoopbackIfIdle
  rw [hl]

theorem stream.stop_effects (s : stream) : Effect.loopbackStop ∉ s.stop.2 := by
  unfold stream.stop
  split <;> simp

theorem ffmpeg.Stop_of_lookup (f : ffmpeg) (id : StreamID) (s : stream)
    (h : f.streams.lookup id = some s) :
    f.Stop id =
      { state := ({ f with streams := f.streams.erase id } : ffmpeg).stopLoopbackIfIdle.1
        ret := ()
        effects := s.stop.2 ++
          ({ f with streams := f.streams.erase id } : ffmpeg).stopLoopbackIfIdle.2 } := by
  unfold ffmpeg.Stop
  rw [ffmpeg.getStream_of_lookup f id s h]

/-- The facts of C18 about the tail of `Stop` and `Snapshot`, on any registry with a loopback. -/
theorem ffmpeg.stopLoopbackIfIdle_spec (f : ffmpeg) (l : loopback) (hl : f.loop = some l) :
    f.stopLoopbackIfIdle.1.streams = f.streams ∧
    (Effect.loopbackStop ∈ f.stopLoopbackIfIdle.2 ↔ f.stopLoopbackIfIdle.1.anyActive = false) ∧
    (f.stopLoopbackIfIdle.1.anyActive = false → f.stopLoopbackIfIdle.1.loop = some l.Stop) ∧
    (f.stopLoopbackIfIdle.1.anyActive = true →
      f.stopLoopbackIfIdle.1.loop = some l ∧ f.stopLoopbackIfIdle.2 = []) := by
  cases ha : f.anyActive with
  | true =>
    rw [ffmpeg.stopLoopbackIfIdle_of_active f l hl ha]
    simp [ha, hl]
  | false =>
    rw [ffmpeg.stopLoopbackIfIdle_of_idle f l hl ha]
    have : ({ f with loop := some l.Stop } : ffmpeg).anyActive = false := ha
    simp [this]

/-- C18: with a loopback device, after `Stop` of a registered id and after every `Snapshot`,
`f.loop.Stop()` has been called exactly when no session remaining in the registry has a process
handle; then the device is the stopped one, and when a remaining session is active the call is
not made and the device is as it was (for `Snapshot`: as `startLoopback` left it). -/
theorem loopback_stopped_iff_idle (f : ffmpeg) (l : loopback) (hl : f.loop = some l) :
    (∀ id : StreamID, id ∈ f.streams →
      (f.Stop id).state.streams = f.streams.erase id ∧
      (Effect.loopbackStop ∈ (f.Stop id).effects ↔ (f.Stop id).state.anyActive = false) ∧
      ((f.Stop id).state.anyActive = false → (f.Stop id).state.loop = some l.Stop) ∧
      ((f.Stop id).state.anyActive = true → (f.Stop id).state.loop = some l)) ∧
    (∀ (w h : Nat) (loopOk : Bool) (shot : Option Hkcam.Snapshot) (err : Option Error),
      (f.Snapshot w h loopOk shot err).state.streams = f.streams ∧
      (Effect.loopbackStop ∈ (f.Snapshot w h loopOk shot err).effects ↔
        (f.Snapshot w h loopOk shot err).state.anyActive = false) ∧
      ((f.Snapshot w h loopOk shot err).state.anyActive = false →
        (f.Snapshot w h loopOk shot err).state.loop = some (l.Start loopOk).1.Stop) ∧
      ((f.Snapshot w h loopOk shot err).state.anyActive = true →
        (f.Snapshot w h loopOk shot err).state.loop = some (l.Start loopOk).1)) := by
  constructor
  · intro id hid
    obtain ⟨s, hs, _⟩ := ffmpeg.getStream_of_mem f id hid
    have hspec := ffmpeg.stopLoopbackIfIdle_spec
      ({ f with streams := f.streams.erase id } : ffmpeg) l hl
    rw [ffmpeg.Stop_of_lookup f id s hs]
    refine ⟨hspec.1, ?_, hspec.2.2.1, fun h => (hspec.2.2.2 h).1⟩
    rw [← hspec.2.1]
    simp [stream.stop_effects s]
  · intro w h loopOk shot err
    have hsl : f.startLoopback loopOk =
        ({ f with loop := some (l.Start loopOk).1 }, [Effect.loopbackStart]) := by
      unfold ffmpeg.startLoopback
      rw [hl]
    have hspec := ffmpeg.stopLoopbackIfIdle_spec
      ({ f with loop := some (l.Start loopOk).1, snapshot := shot } : ffmpeg)
      (l.Start loopOk).1 rfl
    unfold ffmpeg.Snapshot
    rw [hsl]
    dsimp only
    refine ⟨hspec.1, ?_, hspec.2.2.1, fun h => (hspec.2.2.2 h).1⟩
    rw [← hspec.2.1]
    simp

/-- C18 with the two sessions `S1` and `S2` active: `Stop` of `S1` does not call
`f.loop.Stop()`, and `Stop` of `S2` after it does. -/
theorem loopback_stopped_iff_idle_witness :
    Effect.loopbackStop ∉ (twoStarted.Stop idS1).effects ∧
    Effect.loopbackStop ∈ ((twoStarted.Stop idS1).state.Stop idS2).effects :=
  ⟨fun hmem => absurd
      (((loopback_stopped_iff_idle twoStarted ⟨"v4l2", "/dev/video0", "/dev/video99", true⟩
        rfl).1 idS1 (by decide)).2.1.mp hmem) (by decide),
   ((loopback_stopped_iff_idle (twoStarted.Stop idS1).state
      ⟨"v4l2", "/dev/video0", "/dev/video99", true⟩ rfl).1 idS2 (by decide)).2.1.mpr
      (by decide)⟩


theorem loopback.Start_running (l : loopback) : (l.Start true).1.running = true := by
  unfold loopback.Start
  split
  · assumption
  · rfl

theorem ffmpeg.anyActive_of_sublist (f g : ffmpeg)
    (h : ∀ e ∈ g.streams.entries, e.2.isActive = true → e ∈ f.streams.entries)
    (hg : g.anyActive = true) : f.anyActive = true := by
  rw [ffmpeg.anyActive_iff] at hg ⊢
  obtain ⟨e, he, ha⟩ := hg
  exact ⟨e, h e he ha, ha⟩

theorem ffmpeg.PrepareNewStream_inv (f : ffmpeg) (req : SetupEndpoints)
    (resp : SetupEndpointsResponse) (h : f.LoopbackInv) :
    (f.PrepareNewStream req resp).state.LoopbackInv := by
  refine ⟨h.1, fun ha => h.2 (ffmpeg.anyActive_of_sublist f _ ?_ ha)⟩
  intro e he hact
  simp only [ffmpeg.PrepareNewStream, AList.insert_entries] at he
  rcases List.mem_cons.mp he with rfl | hm
  · exact absurd hact (by simp [stream.isActive])
  · exact (List.kerase_sublist _ _).subset hm

theorem ffmpeg.Start_inv (K : RtpConstants) (f : ffmpeg) (id : StreamID)
    (video : VideoParameters) (audio : AudioParameters) (spawn : Except Error Nat)
    (h : f.LoopbackInv) : (f.Start K id video audio true spawn).state.LoopbackInv := by
  cases hl : f.streams.lookup id with
  | none =>
    have hg := ffmpeg.getStream_of_not_mem f id (AList.lookup_eq_none.mp hl)
    unfold ffmpeg.Start
    rw [hg]
    exact h
  | some s =>
    rw [ffmpeg.Start_of_lookup K f id s video audio true spawn hl]
    obtain ⟨l, hloop⟩ := Option.isSome_iff_exists.mp h.1
    have hsl : (f.startLoopback true).1.loop = some (l.Start true).1 := by
      unfold ffmpeg.startLoopback
      rw [hloop]
    constructor
    · show ((f.startLoopback true).1.loop).isSome = true
      rw [hsl]
      rfl
    · intro _
      unfold ffmpeg.loopRunning
      show (match (f.startLoopback true).1.loop with
        | some l => l.running
        | none => false) = true
      rw [hsl]
      exact loopback.Start_running l

theorem ffmpeg.stopLoopbackIfIdle_inv (f : ffmpeg) (h1 : f.loop.isSome = true)
    (h2 : f.anyActive = true → f.loopRunning = true) : f.stopLoopbackIfIdle.1.LoopbackInv := by
  obtain ⟨l, hloop⟩ := Option.isSome_iff_exists.mp h1
  cases ha : f.anyActive with
  | true =>
    rw [ffmpeg.stopLoopbackIfIdle_of_active f l hloop ha]
    exact ⟨h1, h2⟩
  | false =>
    rw [ffmpeg.stopLoopbackIfIdle_of_idle f l hloop ha]
    refine ⟨rfl, fun hact => ?_⟩
    have : ({ f with loop := some l.Stop } : ffmpeg).anyActive = false := ha
    rw [this] at hact
    exact absurd hact (by decide)

theorem ffmpeg.Stop_inv (f : ffmpeg) (id : StreamID) (h : f.LoopbackInv) :
    (f.Stop id).state.LoopbackInv := by
  cases hl : f.streams.lookup id with
  | none =>
    have hg := ffmpeg.getStream_of_not_mem f id (AList.lookup_eq_none.mp hl)
    unfold ffmpeg.Stop
    rw [hg]
    exact h
  | some s =>
    rw [ffmpeg.Stop_of_lookup f id s hl]
    refine ffmpeg.stopLoopbackIfIdle_inv ({ f with streams := f.streams.erase id } : ffmpeg)
      h.1 (fun ha => h.2 (ffmpeg.anyActive_of_sublist f _ ?_ ha))
    intro e he _
    exact (List.kerase_sublist _ _).subset he

theorem ffmpeg.Snapshot_inv (f : ffmpeg) (w h : Nat) (shot : Option Hkcam.Snapshot)
    (err : Option Error) (hinv : f.LoopbackInv) :
    (f.Snapshot w h true shot err).state.LoopbackInv := by
  obtain ⟨l, hloop⟩ := Option.isSome_iff_exists.mp hinv.1
  have hsl : f.startLoopback true =
      ({ f with loop := some (l.Start true).1 }, [Effect.loopbackStart]) := by
    unfold ffmpeg.startLoopback
    rw [hloop]
  unfold ffmpeg.Snapshot
  rw [hsl]
  dsimp only
  exact ffmpeg.stopLoopbackIfIdle_inv
    ({ f with loop := some (l.Start true).1, snapshot := shot } : ffmpeg) rfl
    (fun _ => loopback.Start_running l)

theorem Op.run_inv (K : RtpConstants) (f g : ffmpeg) (op : Op) (es : List Effect)
    (hok : op.loopOk = true) (h : op.run K f = Except.ok (g, es)) (hinv : f.LoopbackInv) :
    g.LoopbackInv := by
  cases op with
  | prepare req resp =>
    simp only [Op.run, Except.ok.injEq, Prod.mk.injEq] at h
    rw [← h.1]
    exact ffmpeg.PrepareNewStream_inv f req resp hinv
  | start id video audio loopOk spawn =>
    simp only [Op.loopOk] at hok
    subst hok
    simp only [Op.run, Except.ok.injEq, Prod.mk.injEq] at h
    rw [← h.1]
    exact ffmpeg.Start_inv K f id video audio spawn hinv
  | stop id =>
    simp only [Op.run, Except.ok.injEq, Prod.mk.injEq] at h
    rw [← h.1]
    exact ffmpeg.Stop_inv f id hinv
  | suspend id =>
    rw [Op.run_suspend K f g id es h]
    exact hinv
  | resume id =>
    rw [Op.run_resume K f g id es h]
    exact hinv
  | reconfigure id video audio =>
    simp only [Op.run, Except.ok.injEq, Prod.mk.injEq] at h
    rw [← h.1]
    have : (f.Reconfigure id video audio).state = f := by
      unfold ffmpeg.Reconfigure
      split <;> rfl
    rw [this]
    exact hinv
  | snapshot w h' loopOk shot err =>
    simp only [Op.loopOk] at hok
    subst hok
    simp only [Op.run, Except.ok.injEq, Prod.mk.injEq] at h
    rw [← h.1]
    exact ffmpeg.Snapshot_inv f w h' shot err hinv

theorem runOps_inv (K : RtpConstants) (ops : List Op) :
    ∀ (f g : ffmpeg) (es : List Effect), (∀ op ∈ ops, op.loopOk = true) →
      runOps K f ops = Except.ok (g, es) → f.LoopbackInv → g.LoopbackInv := by
  induction ops with
  | nil =>
    intro f g es _ h hinv
    simp only [runOps, Except.ok.injEq, Prod.mk.injEq] at h
    rw [← h.1]
    exact hinv
  | cons op rest ih =>
    intro f g es hok h hinv
    obtain ⟨f1, e1, e2, h1, h2, _⟩ := runOps_cons_ok K f g op rest es h
    exact ih f1 g e2 (fun o ho => hok o (List.mem_cons_of_mem op ho)) h2
      (Op.run_inv K f f1 op e1 (hok op (List.mem_cons_self op rest)) h1 hinv)

theorem New_inv (cfg : Config) (h : cfg.LoopbackFilename ≠ "") : (New cfg).LoopbackInv := by
  constructor
  · simp [New, h]
  · intro ha
    exact absurd ha (by simp [ffmpeg.anyActive, New])

theorem ffmpeg.Suspend_effects (f : ffmpeg) (id : StreamID) (o : Outcome Unit)
    (h : f.Suspend id = Except.ok o) : Effect.loopbackStop ∉ o.effects := by
  unfold ffmpeg.Suspend at h
  cases hg : f.getStream id with
  | error e =>
    rw [hg] at h
    cases h
    simp
  | ok s =>
    rw [hg] at h
    dsimp only at h
    unfold stream.suspend at h
    cases hc : s.cmd with
    | none => rw [hc] at h; cases h
    | some c => rw [hc] at h; cases h; simp

theorem ffmpeg.Resume_effects (f : ffmpeg) (id : StreamID) (o : Outcome Unit)
    (h : f.Resume id = Except.ok o) : Effect.loopbackStop ∉ o.effects := by
  unfold ffmpeg.Resume at h
  cases hg : f.getStream id with
  | error e =>
    rw [hg] at h
    cases h
    simp
  | ok s =>
    rw [hg] at h
    dsimp only at h
    unfold stream.resume at h
    cases hc : s.cmd with
    | none => rw [hc] at h; cases h
    | some c => rw [hc] at h; cases h; simp

theorem ffmpeg.startLoopback_effects (f : ffmpeg) (loopOk : Bool) :
    Effect.loopbackStop ∉ (f.startLoopback loopOk).2 := by
  unfold ffmpeg.startLoopback
  split <;> simp

theorem stream.start_effects (K : RtpConstants) (s : stream) (video : VideoParameters)
    (audio : AudioParameters) (spawn : Except Error Nat) :
    Effect.loopbackStop ∉ (s.start K video audio spawn).2.2 := by
  unfold stream.start
  dsimp only
  split <;> simp

theorem ffmpeg.stopLoopbackIfIdle_stop_idle (f : ffmpeg)
    (h : Effect.loopbackStop ∈ f.stopLoopbackIfIdle.2) :
    f.stopLoopbackIfIdle.1.anyActive = false := by
  cases hl : f.loop with
  | none =>
    rw [ffmpeg.stopLoopbackIfIdle_of_none f hl] at h
    simp at h
  | some l => exact (ffmpeg.stopLoopbackIfIdle_spec f l hl).2.1.mp h

theorem Op.run_stop_idle (K : RtpConstants) (f g : ffmpeg) (op : Op) (es : List Effect)
    (h : op.run K f = Except.ok (g, es)) (hs : Effect.loopbackStop ∈ es) :
    g.anyActive = false := by
  cases op with
  | prepare req resp =>
    simp only [Op.run, Except.ok.injEq, Prod.mk.injEq] at h
    rw [← h.2] at hs
    simp [ffmpeg.PrepareNewStream] at hs
  | start id video audio loopOk spawn =>
    simp only [Op.run, Except.ok.injEq, Prod.mk.injEq] at h
    rw [← h.2] at hs
    exfalso
    cases hl : f.streams.lookup id with
    | none =>
      have hg := ffmpeg.getStream_of_not_mem f id (AList.lookup_eq_none.mp hl)
      unfold ffmpeg.Start at hs
      rw [hg] at hs
      simp at hs
    | some s =>
      rw [ffmpeg.Start_of_lookup K f id s video audio loopOk spawn hl] at hs
      rcases List.mem_append.mp hs with h1 | h1
      · exact ffmpeg.startLoopback_effects f loopOk h1
      · exact stream.start_effects K s video audio spawn h1
  | stop id =>
    simp only [Op.run, Except.ok.injEq, Prod.mk.injEq] at h
    rw [← h.2] at hs
    rw [← h.1]
    cases hl : f.streams.lookup id with
    | none =>
      have hg := ffmpeg.getStream_of_not_mem f id (AList.lookup_eq_none.mp hl)
      unfold ffmpeg.Stop at hs
      rw [hg] at hs
      simp at hs
    | some s =>
      rw [ffmpeg.Stop_of_lookup f id s hl] at hs ⊢
      rcases List.mem_append.mp hs with h1 | h1
      · exact absurd h1 (stream.stop_effects s)
      · exact ffmpeg.stopLoopbackIfIdle_stop_idle _ h1
  | suspend id =>
    simp only [Op.run] at h
    cases ho : f.Suspend id with
    | error p => rw [ho] at h; cases h
    | ok o =>
      rw [ho] at h
      cases h
      exact absurd hs (ffmpeg.Suspend_effects f id o ho)
  | resume id =>
    simp only [Op.run] at h
    cases ho : f.Resume id with
    | error p => rw [ho] at h; cases h
    | ok o =>
      rw [ho] at h
      cases h
      exact absurd hs (ffmpeg.Resume_effects f id o ho)
  | reconfigure id video audio =>
    simp only [Op.run, Except.ok.injEq, Prod.mk.injEq] at h
    rw [← h.2] at hs
    exfalso
    revert hs
    unfold ffmpeg.Reconfigure
    split <;> simp
  | snapshot w h' loopOk shot err =>
    simp only [Op.run, Except.ok.injEq, Prod.mk.injEq] at h
    rw [← h.2] at hs
    rw [← h.1]
    unfold ffmpeg.Snapshot at hs ⊢
    dsimp only at hs ⊢
    rcases List.mem_append.mp hs with h1 | h1
    · exfalso
      rcases List.mem_append.mp h1 with h2 | h2
      · exact ffmpeg.startLoopback_effects f loopOk h2
      · simp at h2
    · exact ffmpeg.stopLoopbackIfIdle_stop_idle _ h1


theorem ffmpeg.anyActive_of_lookup (f : ffmpeg) (id : StreamID) (s : stream)
    (h : f.streams.lookup id = some s) (ha : s.isActive = true) : f.anyActive = true := by
  rw [ffmpeg.anyActive_iff]
  exact ⟨⟨id, s⟩, AList.mem_lookup_iff.mp (by rw [h]; exact rfl), ha⟩

theorem ffmpeg.Stop_loopbackStop_iff (f : ffmpeg) (id : StreamID) (l : loopback)
    (hid : id ∈ f.streams) (hl : f.loop = some l) :
    Effect.loopbackStop ∈ (f.Stop id).effects ↔ (f.Stop id).state.anyActive = false := by
  obtain ⟨s, hs, _⟩ := ffmpeg.getStream_of_mem f id hid
  have hspec := ffmpeg.stopLoopbackIfIdle_spec
    ({ f with streams := f.streams.erase id } : ffmpeg) l hl
  rw [ffmpeg.Stop_of_lookup f id s hs, ← hspec.2.1]
  simp [stream.stop_effects s]

/-- C13: with a loopback device configured and every loopback start succeeding, in every state
reached from `New` by a sequence of calls, the device is bridging whenever some session of the
registry has a process handle; a call out of such a state that makes `f.loop.Stop()` leaves no
session of the registry active; and with two active sessions the `Stop` of either one does not
stop the device, which is stopped by the `Stop` of the other when no session is left active. -/
theorem loopback_runs_while_active (K : RtpConstants) (cfg : Config) (ops : List Op)
    (f : ffmpeg) (es : List Effect) (hcfg : cfg.LoopbackFilename ≠ "")
    (hok : ∀ op ∈ ops, op.loopOk = true)
    (hrun : runOps K (New cfg) ops = Except.ok (f, es)) :
    (f.anyActive = true → f.loopRunning = true) ∧
    (∀ (op : Op) (g : ffmpeg) (e : List Effect), op.run K f = Except.ok (g, e) →
      Effect.loopbackStop ∈ e → g.anyActive = false) ∧
    (∀ (a b : StreamID) (sa sb : stream), a ≠ b →
      f.streams.lookup a = some sa → sa.isActive = true →
      f.streams.lookup b = some sb → sb.isActive = true →
      Effect.loopbackStop ∉ (f.Stop a).effects ∧
      (f.Stop a).state.loopRunning = true ∧
      (((f.Stop a).state.Stop b).state.anyActive = false →
        Effect.loopbackStop ∈ ((f.Stop a).state.Stop b).effects ∧
        ((f.Stop a).state.Stop b).state.loopRunning = false)) := by
  have hinv : f.LoopbackInv := runOps_inv K ops (New cfg) f es hok hrun (New_inv cfg hcfg)
  refine ⟨hinv.2, fun op g e h hs => Op.run_stop_idle K f g op e h hs, ?_⟩
  intro a b sa sb hab hla _ hlb hsb
  have hma : a ∈ f.streams := AList.lookup_isSome.mp (by rw [hla]; rfl)
  have hst : (f.Stop a).state.streams = f.streams.erase a := ffmpeg.Stop_streams_of_mem f a hma
  have hlb2 : (f.Stop a).state.streams.lookup b = some sb := by
    rw [hst, AList.lookup_erase_ne (fun c => hab c.symm)]
    exact hlb
  have hact : (f.Stop a).state.anyActive = true :=
    ffmpeg.anyActive_of_lookup _ b sb hlb2 hsb
  have hinv2 : (f.Stop a).state.LoopbackInv := ffmpeg.Stop_inv f a hinv
  obtain ⟨l, hl⟩ := Option.isSome_iff_exists.mp hinv.1
  obtain ⟨l2, hl2⟩ := Option.isSome_iff_exists.mp hinv2.1
  have hmb : b ∈ (f.Stop a).state.streams := AList.lookup_isSome.mp (by rw [hlb2]; rfl)
  refine ⟨?_, hinv2.2 hact, ?_⟩
  · intro hmem
    have := (ffmpeg.Stop_loopbackStop_iff f a l hma hl).mp hmem
    rw [hact] at this
    exact absurd this (by decide)
  · intro hidle
    refine ⟨(ffmpeg.Stop_loopbackStop_iff _ b l2 hmb hl2).mpr hidle, ?_⟩
    have hspec := ffmpeg.stopLoopbackIfIdle_spec
      ({ (f.Stop a).state with streams := (f.Stop a).state.streams.erase b } : ffmpeg) l2 hl2
    rw [ffmpeg.Stop_of_lookup _ b sb hlb2] at hidle ⊢
    unfold ffmpeg.loopRunning
    rw [hspec.2.2.1 hidle]
    rfl

/-- C13 after the sessions `S1` and `S2` were prepared and started on a registry with the
loopback `/dev/video99`: a session is active and the device is bridging. -/
theorem loopback_runs_while_active_witness :
    ∃ f es, runOps hapConstants (New loopConfig) twoStartedOps = Except.ok (f, es) ∧
      f.anyActive = true ∧ f.loopRunning = true :=
  ⟨_, _, rfl, by decide,
    (loopback_runs_while_active hapConstants loopConfig twoStartedOps _ _ (by decide)
      (by decide) rfl).1 (by decide)⟩

/-- C20 fails on the code: after `Start` on a session that is already active, and after
`PrepareNewStream` with the session id of an active session, the process 7 spawned first is
still alive (no `stream.stop` terminated it) and is the handle of no session of the registry. -/
theorem spawned_process_orphaned :
    (∃ f es, runOps hapConstants (New demoConfig) restartOps = Except.ok (f, es) ∧
      7 ∈ liveAfter [] es ∧ 7 ∉ f.handles ∧ f.handles = [8]) ∧
    (∃ f es, runOps hapConstants (New demoConfig) reprepareOps = Except.ok (f, es) ∧
      7 ∈ liveAfter [] es ∧ 7 ∉ f.handles ∧ f.handles = []) :=
  ⟨⟨_, _, rfl, by decide, by decide, by decide⟩, ⟨_, _, rfl, by decide, by decide, by decide⟩⟩

end Hkcam
